import Mathlib

/-!
Verification development for the Blue Marble template reconciliation and
write-scheduling engine (a userscript overlaying raster templates on a tiled
remote pixel canvas).

The definitions below are shallow embeddings of the engine's source:
* `src/utils.js` — the fixed color palette, `findClosestColor`
  (Euclidean nearest-neighbour lookup), the sRGB → XYZ → LAB conversion chain
  and the CIEDE2000 colour distance (`calculateColorDifference`);
* `src/templateManager.js` — the per-pixel classification performed by
  `analyzeTile` (grief-clean / new-placement / colour-correction tiers, the
  centre-bonus term, and the template-colour memoisation cache);
* the ApiManager — `executeQuickPaint`'s availability filter, priority sort,
  weighted random selection (Efraimidis–Spirakis A-ES keys) and post-submit
  queue removal, plus the available-colour set decoded from the `me` response;
* `src/autoPainter.js` — the retry-governed paint-cycle state machine.

JavaScript numbers are modelled by `ℤ`/`ℚ` where the code manipulates exact
integers or exact decimal constants, and by `ℝ` where the code goes through
`Math.sqrt` / `Math.pow` / trigonometry.  Mutable state (the memo cache, the
painter's failure counter) is passed explicitly.
-/

namespace BlueMarble

/-! ### Palette (`colorpalette` in `src/utils.js`) -/

/-- One palette entry: display name and RGB triple. -/
structure PaletteColor where
  name : String
  rgb : ℤ × ℤ × ℤ
deriving DecidableEq, Repr

/-- The fixed wplace.live palette, transcribed from `src/utils.js`.
Index 0 is the reserved "Transparent" (erase) entry. -/
def colorpalette : List PaletteColor := [
  ⟨"Transparent", (0, 0, 0)⟩,
  ⟨"Black", (0, 0, 0)⟩,
  ⟨"Dark Gray", (60, 60, 60)⟩,
  ⟨"Gray", (120, 120, 120)⟩,
  ⟨"Light Gray", (210, 210, 210)⟩,
  ⟨"White", (255, 255, 255)⟩,
  ⟨"Deep Red", (96, 0, 24)⟩,
  ⟨"Red", (237, 28, 36)⟩,
  ⟨"Orange", (255, 127, 39)⟩,
  ⟨"Gold", (246, 170, 9)⟩,
  ⟨"Yellow", (249, 221, 59)⟩,
  ⟨"Light Yellow", (255, 250, 188)⟩,
  ⟨"Dark Green", (14, 185, 104)⟩,
  ⟨"Green", (19, 230, 123)⟩,
  ⟨"Light Green", (135, 255, 94)⟩,
  ⟨"Dark Teal", (12, 129, 110)⟩,
  ⟨"Teal", (16, 174, 166)⟩,
  ⟨"Light Teal", (19, 225, 190)⟩,
  ⟨"Dark Blue", (40, 80, 158)⟩,
  ⟨"Blue", (64, 147, 228)⟩,
  ⟨"Cyan", (96, 247, 242)⟩,
  ⟨"Indigo", (107, 80, 246)⟩,
  ⟨"Light Indigo", (153, 177, 251)⟩,
  ⟨"Dark Purple", (120, 12, 153)⟩,
  ⟨"Purple", (170, 56, 185)⟩,
  ⟨"Light Purple", (224, 159, 249)⟩,
  ⟨"Dark Pink", (203, 0, 122)⟩,
  ⟨"Pink", (236, 31, 128)⟩,
  ⟨"Light Pink", (243, 141, 169)⟩,
  ⟨"Dark Brown", (104, 70, 52)⟩,
  ⟨"Brown", (149, 104, 42)⟩,
  ⟨"Beige", (248, 178, 119)⟩,
  ⟨"Medium Gray", (170, 170, 170)⟩,
  ⟨"Dark Red", (165, 14, 30)⟩,
  ⟨"Light Red", (250, 128, 114)⟩,
  ⟨"Dark Orange", (228, 92, 26)⟩,
  ⟨"Light Tan", (214, 181, 148)⟩,
  ⟨"Dark Goldenrod", (156, 132, 49)⟩,
  ⟨"Goldenrod", (197, 173, 49)⟩,
  ⟨"Light Goldenrod", (232, 212, 95)⟩,
  ⟨"Dark Olive", (74, 107, 58)⟩,
  ⟨"Olive", (90, 148, 74)⟩,
  ⟨"Light Olive", (132, 197, 115)⟩,
  ⟨"Dark Cyan", (15, 121, 159)⟩,
  ⟨"Light Cyan", (187, 250, 242)⟩,
  ⟨"Light Blue", (125, 199, 255)⟩,
  ⟨"Dark Indigo", (77, 49, 184)⟩,
  ⟨"Dark Slate Blue", (74, 66, 132)⟩,
  ⟨"Slate Blue", (122, 113, 196)⟩,
  ⟨"Light Slate Blue", (181, 174, 241)⟩,
  ⟨"Light Brown", (219, 164, 99)⟩,
  ⟨"Dark Beige", (209, 128, 81)⟩,
  ⟨"Light Beige", (255, 197, 165)⟩,
  ⟨"Dark Peach", (155, 82, 73)⟩,
  ⟨"Peach", (209, 128, 120)⟩,
  ⟨"Light Peach", (250, 182, 164)⟩,
  ⟨"Dark Tan", (123, 99, 82)⟩,
  ⟨"Tan", (156, 132, 107)⟩,
  ⟨"Dark Slate", (51, 57, 65)⟩,
  ⟨"Slate", (109, 117, 141)⟩,
  ⟨"Light Slate", (179, 185, 209)⟩,
  ⟨"Dark Stone", (109, 100, 63)⟩,
  ⟨"Stone", (148, 140, 107)⟩,
  ⟨"Light Stone", (205, 197, 158)⟩]

/-- An RGB sample (components are JS numbers; here exact integers 0–255 when
they come from `ImageData`, but the lookup is defined for all integers, like
the JS original). -/
structure RGB where
  r : ℤ
  g : ℤ
  b : ℤ
deriving DecidableEq, Repr

/-- `initializePalettes` of `src/utils.js`: the palette mapped to raw RGB
triples, with the entry named "Transparent" replaced by `null` (`none`). -/
def colorpaletteRGB : List (Option (ℤ × ℤ × ℤ)) :=
  colorpalette.map (fun color => if color.name = "Transparent" then none else some color.rgb)

/-- Squared Euclidean RGB distance (`dr*dr + dg*dg + db*db` in
`findClosestColor`). -/
def distanceSq (rgb : RGB) (p : ℤ × ℤ × ℤ) : ℤ :=
  (rgb.r - p.1) * (rgb.r - p.1) + (rgb.g - p.2.1) * (rgb.g - p.2.1) +
    (rgb.b - p.2.2) * (rgb.b - p.2.2)

/-- The `forEach` loop of `findClosestColor`, with the mutable
`minDistanceSq`/`closestColorIndex` pair threaded explicitly.
`minD = none` is the initial `Infinity`; `closest` starts at `-1`.
The `index = 0` guard skips the Transparent entry (the only `none` in
`colorpaletteRGB`), so the `none` branch below is unreachable on the real
palette and conservatively behaves as a skip. -/
def findClosestColorGo (rgb : RGB) :
    ℕ → List (Option (ℤ × ℤ × ℤ)) → Option ℤ → ℤ → ℤ
  | _, [], _, closest => closest
  | index, p :: rest, minD, closest =>
    if index = 0 then findClosestColorGo rgb (index + 1) rest minD closest
    else
      match p with
      | none => findClosestColorGo rgb (index + 1) rest minD closest
      | some prgb =>
        let d := distanceSq rgb prgb
        match minD with
        | none => findClosestColorGo rgb (index + 1) rest (some d) (index : ℤ)
        | some m =>
          if d < m then findClosestColorGo rgb (index + 1) rest (some d) (index : ℤ)
          else findClosestColorGo rgb (index + 1) rest (some m) closest

/-- `findClosestColor` of `src/utils.js`: index of the nearest non-transparent
palette entry under squared Euclidean RGB distance (first minimal entry wins;
`-1` is the JS initial sentinel, proven unreachable). -/
def findClosestColor (rgb : RGB) : ℤ :=
  findClosestColorGo rgb 0 colorpaletteRGB none (-1)

/-- RGB triple of the palette entry with (nonnegative) index `n`. -/
def paletteRGBAt (n : ℕ) : ℤ × ℤ × ℤ :=
  (colorpalette.getD n ⟨"", (0, 0, 0)⟩).rgb

/-- The non-transparent palette suffix (entries 1 … 63) as raw RGB triples. -/
def paletteTail : List (ℤ × ℤ × ℤ) :=
  (colorpalette.drop 1).map PaletteColor.rgb

lemma colorpaletteRGB_eq :
    colorpaletteRGB = none :: paletteTail.map some := by
  rfl

/-- Argmin invariant of the `findClosestColor` loop: starting from a running
minimum `m` attained at index `c`, the loop either keeps `c` (when nothing in
the rest beats `m` strictly) or returns the first strict improver that is also
a global minimum of the rest. -/
lemma findClosestColorGo_spec (rgb : RGB) (l : List (ℤ × ℤ × ℤ)) :
    ∀ (i : ℕ) (m : ℤ) (c : ℤ), i ≠ 0 →
    (findClosestColorGo rgb i (l.map some) (some m) c = c ∧
       ∀ k, k < l.length → m ≤ distanceSq rgb (l.getD k (0, 0, 0)))
    ∨ (∃ k, k < l.length ∧
        findClosestColorGo rgb i (l.map some) (some m) c = ((i + k : ℕ) : ℤ) ∧
        distanceSq rgb (l.getD k (0, 0, 0)) < m ∧
        (∀ j, j < l.length →
          distanceSq rgb (l.getD k (0, 0, 0)) ≤ distanceSq rgb (l.getD j (0, 0, 0))) ∧
        (∀ j, j < k →
          distanceSq rgb (l.getD k (0, 0, 0)) < distanceSq rgb (l.getD j (0, 0, 0)))) := by
  induction l with
  | nil =>
    intro i m c _
    left
    constructor
    · simp [findClosestColorGo]
    · intro k hk; simp at hk
  | cons x xs ih =>
    intro i m c hi
    have hstep : findClosestColorGo rgb i ((x :: xs).map some) (some m) c =
        (if distanceSq rgb x < m then
          findClosestColorGo rgb (i + 1) (xs.map some) (some (distanceSq rgb x)) (i : ℤ)
        else findClosestColorGo rgb (i + 1) (xs.map some) (some m) c) := by
      simp only [List.map_cons, findClosestColorGo, if_neg hi]
    by_cases hd : distanceSq rgb x < m
    · rw [hstep, if_pos hd]
      rcases ih (i + 1) (distanceSq rgb x) (i : ℤ) (Nat.succ_ne_zero i) with
        ⟨heq, hall⟩ | ⟨k, hk, heq, hlt, hle, hfirst⟩
      · right
        refine ⟨0, by simp, by simpa using heq, by simpa using hd, ?_, ?_⟩
        · intro j hj
          cases j with
          | zero => simp
          | succ j =>
            simp only [List.getD_cons_succ, List.getD_cons_zero]
            exact hall j (by simpa using hj)
        · intro j hj; omega
      · right
        refine ⟨k + 1, by simpa using hk, ?_, ?_, ?_, ?_⟩
        · rw [heq]; congr 1; omega
        · simp only [List.getD_cons_succ]
          exact lt_trans hlt hd
        · intro j hj
          cases j with
          | zero =>
            simp only [List.getD_cons_succ, List.getD_cons_zero]
            exact le_of_lt hlt
          | succ j =>
            simp only [List.getD_cons_succ]
            exact hle j (by simpa using hj)
        · intro j hj
          cases j with
          | zero =>
            simp only [List.getD_cons_succ, List.getD_cons_zero]
            exact hlt
          | succ j =>
            simp only [List.getD_cons_succ]
            exact hfirst j (by omega)
    · rw [hstep, if_neg hd]
      rcases ih (i + 1) m c (Nat.succ_ne_zero i) with
        ⟨heq, hall⟩ | ⟨k, hk, heq, hlt, hle, hfirst⟩
      · left
        refine ⟨heq, ?_⟩
        intro j hj
        cases j with
        | zero => simpa using le_of_not_lt hd
        | succ j =>
          simp only [List.getD_cons_succ]
          exact hall j (by simpa using hj)
      · right
        refine ⟨k + 1, by simpa using hk, ?_, ?_, ?_, ?_⟩
        · rw [heq]; congr 1; omega
        · simpa using hlt
        · intro j hj
          cases j with
          | zero =>
            simp only [List.getD_cons_succ, List.getD_cons_zero]
            exact le_of_lt (lt_of_lt_of_le hlt (le_of_not_lt hd))
          | succ j =>
            simp only [List.getD_cons_succ]
            exact hle j (by simpa using hj)
        · intro j hj
          cases j with
          | zero =>
            simp only [List.getD_cons_succ, List.getD_cons_zero]
            exact lt_of_lt_of_le hlt (le_of_not_lt hd)
          | succ j =>
            simp only [List.getD_cons_succ]
            exact hfirst j (by omega)

/-- Starting from the JS initial state (`minDistanceSq = Infinity`,
`closestColorIndex = -1`), a nonempty candidate list always yields the first
global minimiser. -/
lemma findClosestColorGo_none_spec (rgb : RGB) (x : ℤ × ℤ × ℤ)
    (xs : List (ℤ × ℤ × ℤ)) (i : ℕ) (hi : i ≠ 0) :
    ∃ k, k < (x :: xs).length ∧
      findClosestColorGo rgb i ((x :: xs).map some) none (-1) = ((i + k : ℕ) : ℤ) ∧
      (∀ j, j < (x :: xs).length →
        distanceSq rgb ((x :: xs).getD k (0, 0, 0)) ≤
          distanceSq rgb ((x :: xs).getD j (0, 0, 0))) ∧
      (∀ j, j < k →
        distanceSq rgb ((x :: xs).getD k (0, 0, 0)) <
          distanceSq rgb ((x :: xs).getD j (0, 0, 0))) := by
  have hstep : findClosestColorGo rgb i ((x :: xs).map some) none (-1) =
      findClosestColorGo rgb (i + 1) (xs.map some) (some (distanceSq rgb x)) (i : ℤ) := by
    simp only [List.map_cons, findClosestColorGo, if_neg hi]
  rw [hstep]
  rcases findClosestColorGo_spec rgb xs (i + 1) (distanceSq rgb x) (i : ℤ)
      (Nat.succ_ne_zero i) with ⟨heq, hall⟩ | ⟨k, hk, heq, hlt, hle, hfirst⟩
  · refine ⟨0, by simp, by simpa using heq, ?_, ?_⟩
    · intro j hj
      cases j with
      | zero => simp
      | succ j =>
        simp only [List.getD_cons_succ, List.getD_cons_zero]
        exact hall j (by simpa using hj)
    · intro j hj; omega
  · refine ⟨k + 1, by simpa using hk, ?_, ?_, ?_⟩
    · rw [heq]; congr 1; omega
    · intro j hj
      cases j with
      | zero =>
        simp only [List.getD_cons_succ, List.getD_cons_zero]
        exact le_of_lt hlt
      | succ j =>
        simp only [List.getD_cons_succ]
        exact hle j (by simpa using hj)
    · intro j hj
      cases j with
      | zero =>
        simp only [List.getD_cons_succ, List.getD_cons_zero]
        exact hlt
      | succ j =>
        simp only [List.getD_cons_succ]
        exact hfirst j (by omega)

set_option maxHeartbeats 1000000 in
lemma paletteTail_getD :
    ∀ k, k < 63 → paletteTail.getD k (0, 0, 0) = paletteRGBAt (k + 1) := by
  decide

lemma paletteTail_length : paletteTail.length = 63 := by rfl

set_option maxHeartbeats 1000000 in
lemma paletteTail_cons :
    paletteTail = ((0, 0, 0) : ℤ × ℤ × ℤ) :: paletteTail.tail := by rfl

set_option maxHeartbeats 1000000 in
lemma findClosestColor_eq_go (rgb : RGB) :
    findClosestColor rgb =
      findClosestColorGo rgb 1 (paletteTail.map some) none (-1) := by
  show findClosestColorGo rgb 0 colorpaletteRGB none (-1) = _
  rw [colorpaletteRGB_eq]
  simp [findClosestColorGo]

end BlueMarble

/-- C8: for every RGB triple, `findClosestColor` never returns palette id 0
(the transparent entry is excluded from candidacy); the returned id is a real
palette index (1 … 63) minimising squared Euclidean RGB distance over all
non-transparent entries; ties go to the first minimal entry in palette order
(every strictly earlier non-transparent entry is strictly farther); and the
lookup is a pure function, so repeated calls agree. -/
theorem C8_findClosestColor_spec (rgb : BlueMarble.RGB) :
    BlueMarble.findClosestColor rgb ≠ 0 ∧
    (∃ n : ℕ, 1 ≤ n ∧ n ≤ 63 ∧ BlueMarble.findClosestColor rgb = (n : ℤ) ∧
      (∀ j : ℕ, 1 ≤ j → j ≤ 63 →
        BlueMarble.distanceSq rgb (BlueMarble.paletteRGBAt n) ≤
          BlueMarble.distanceSq rgb (BlueMarble.paletteRGBAt j)) ∧
      (∀ j : ℕ, 1 ≤ j → j < n →
        BlueMarble.distanceSq rgb (BlueMarble.paletteRGBAt n) <
          BlueMarble.distanceSq rgb (BlueMarble.paletteRGBAt j))) ∧
    BlueMarble.findClosestColor rgb = BlueMarble.findClosestColor rgb := by
  have hcons := BlueMarble.paletteTail_cons
  have h0 := BlueMarble.findClosestColor_eq_go rgb
  obtain ⟨k, hk, heq, hle, hfirst⟩ :=
    BlueMarble.findClosestColorGo_none_spec rgb (0, 0, 0)
      BlueMarble.paletteTail.tail 1 one_ne_zero
  rw [← hcons] at hk heq hle hfirst
  rw [BlueMarble.paletteTail_length] at hk
  have hval : BlueMarble.findClosestColor rgb = ((k + 1 : ℕ) : ℤ) := by
    rw [h0, heq]; congr 1; omega
  have hbridge := BlueMarble.paletteTail_getD
  refine ⟨?_, ⟨k + 1, le_add_self, by omega, hval, ?_, ?_⟩, rfl⟩
  · rw [hval]
    exact_mod_cast Nat.succ_ne_zero k
  · intro j hj1 hj63
    have hjlt : j - 1 < BlueMarble.paletteTail.length := by
      rw [BlueMarble.paletteTail_length]; omega
    have := hle (j - 1) hjlt
    rwa [hbridge k hk, hbridge (j - 1) (by omega), Nat.sub_add_cancel hj1] at this
  · intro j hj1 hjn
    have := hfirst (j - 1) (by omega)
    rwa [hbridge k hk, hbridge (j - 1) (by omega), Nat.sub_add_cancel hj1] at this

/-- Witness for C8 at the concrete input RGB (0,0,0): the lookup avoids the
transparent id 0 (it returns 1, "Black"). -/
theorem C8_findClosestColor_spec_witness :
    BlueMarble.findClosestColor ⟨0, 0, 0⟩ ≠ 0 ∧
    BlueMarble.findClosestColor ⟨0, 0, 0⟩ = 1 :=
  ⟨(C8_findClosestColor_spec ⟨0, 0, 0⟩).1, by decide⟩

namespace BlueMarble

/-! ### Available colours from the `me` user-data response
(`spontaneousResponseListener`, ApiManager). -/

/-- JavaScript's `>>> 0` (ToUint32) applied to an integer. -/
def toUint32 (n : ℤ) : ℕ := (n % (2 ^ 32 : ℤ)).toNat

/-- Length of `(v).toString(2)` — the number of binary digits JavaScript
prints for the unsigned value (`"0"` has length 1). -/
def binaryBitmapLength (v : ℕ) : ℕ := if v = 0 then 1 else v.size

/-- The `availableColors` table built from a `me` response.
`bitmap = none` models a missing or non-numeric `extraColorsBitmap`
(`parseInt` returned `NaN`).  Ids 0–31 are unconditionally available;
ids 32–65 follow the reversed binary expansion of `extraColorsBitmap >>> 0`
(bit `i - 32` of the unsigned value), with positions past the printed digits
explicitly marked unavailable; ids ≥ 66 are never entered in the object
(modelled as `false`, matching JS `undefined` being falsy). -/
def availableColorsOf (bitmap : Option ℤ) (i : ℕ) : Bool :=
  if i < 32 then true
  else if i < 66 then
    match bitmap with
    | none => false
    | some n =>
      let v := toUint32 n
      if i - 32 < binaryBitmapLength v then v.testBit (i - 32) else false
  else false

/-! ### Post-submission queue removal (`executeQuickPaint`, Step 6). -/

/-- A pixel-queue entry (`{tileCoords, pixelCoords, colorId, priority}`).
Coordinates and ids are exact JS numbers; `priority` may carry the real-valued
centre bonus, hence `ℝ`. -/
structure PixelData where
  tileCoords : ℚ × ℚ
  pixelCoords : ℚ × ℚ
  colorId : ℤ
  priority : ℝ

/-- The de-duplication key `"${tileCoords.join(',')}-${pixelCoords.join(',')}"`
— on numeric coordinate pairs the string is in bijection with the pair of
pairs, so we model it by the pairs themselves. -/
def pixelKey (p : PixelData) : (ℚ × ℚ) × (ℚ × ℚ) := (p.tileCoords, p.pixelCoords)

/-- Removal of a set of submitted keys from the queue:
`pixelQueue.filter(p => !paintedPixelKeys.has(key(p)))`. -/
def removeKeys (queue : List PixelData) (ks : List ((ℚ × ℚ) × (ℚ × ℚ))) :
    List PixelData :=
  queue.filter (fun p => decide (pixelKey p ∉ ks))

/-- The queue update performed after a confirmed submission: the painted
pixels' keys are collected and filtered out of the authoritative queue. -/
def removePainted (queue painted : List PixelData) : List PixelData :=
  removeKeys queue (painted.map pixelKey)

end BlueMarble

/-- C10: the available-colour set built from the `me` response always marks
ids 0–31 (including transparent id 0) available, whatever the
`extraColorsBitmap` field holds (including missing/non-numeric, `bm = none`);
ids 32–65 are exactly the bits of the unsigned 32-bit bitmap value; every id
past the bitmap's printed bit length — and all of 32–65 when the bitmap is
missing — is unavailable; ids beyond 65 are never marked available. -/
theorem C10_availableColors_spec :
    (∀ bm : Option ℤ, ∀ i : ℕ, i < 32 → BlueMarble.availableColorsOf bm i = true) ∧
    (∀ n : ℤ, ∀ i : ℕ, 32 ≤ i → i < 66 →
      BlueMarble.availableColorsOf (some n) i = (BlueMarble.toUint32 n).testBit (i - 32)) ∧
    (∀ i : ℕ, 32 ≤ i → i < 66 → BlueMarble.availableColorsOf none i = false) ∧
    (∀ n : ℤ, ∀ i : ℕ, 32 ≤ i → i < 66 →
      BlueMarble.binaryBitmapLength (BlueMarble.toUint32 n) ≤ i - 32 →
      BlueMarble.availableColorsOf (some n) i = false) ∧
    (∀ bm : Option ℤ, ∀ i : ℕ, 66 ≤ i → BlueMarble.availableColorsOf bm i = false) := by
  refine ⟨?_, ?_, ?_, ?_, ?_⟩
  · intro bm i hi
    simp [BlueMarble.availableColorsOf, hi]
  · intro n i h32 h66
    simp only [BlueMarble.availableColorsOf, if_neg (by omega : ¬i < 32),
      if_pos h66]
    by_cases hlen : i - 32 < BlueMarble.binaryBitmapLength (BlueMarble.toUint32 n)
    · simp [hlen]
    · simp only [if_neg hlen]
      have hsize : (BlueMarble.toUint32 n).size ≤ i - 32 := by
        by_cases hv : BlueMarble.toUint32 n = 0
        · simp [hv, Nat.size_zero]
        · have := le_of_not_lt hlen
          simpa [BlueMarble.binaryBitmapLength, hv] using this
      have hlt : BlueMarble.toUint32 n < 2 ^ (i - 32) :=
        lt_of_lt_of_le (Nat.lt_size_self _)
          (Nat.pow_le_pow_right (by norm_num) hsize)
      exact (Nat.testBit_lt_two_pow hlt).symm
  · intro i h32 h66
    have h1 : ¬i < 32 := by omega
    simp [BlueMarble.availableColorsOf, h1, h66]
  · intro n i h32 h66 hlen
    have h1 : ¬i < 32 := by omega
    have h2 : ¬i - 32 < BlueMarble.binaryBitmapLength (BlueMarble.toUint32 n) := by omega
    simp [BlueMarble.availableColorsOf, h1, h66, h2]
  · intro bm i hi
    have h1 : ¬i < 32 := by omega
    have h2 : ¬i < 66 := by omega
    simp [BlueMarble.availableColorsOf, h1, h2]

/-- Witness for C10 at concrete inputs: with a missing bitmap, the transparent
id 0 is available and the first extra colour id 32 is not. -/
theorem C10_availableColors_spec_witness :
    BlueMarble.availableColorsOf none 0 = true ∧
    BlueMarble.availableColorsOf none 32 = false :=
  ⟨C10_availableColors_spec.1 none 0 (by decide),
   (C10_availableColors_spec.2.2.1) 32 (by decide) (by decide)⟩

/-- C7: after a confirmed submission every submitted `(tileCoords,pixelCoords)`
key is gone from the queue; removal is idempotent (filtering the same key set
twice equals filtering it once); and removing keys absent from the queue
leaves the queue unchanged (a no-op, not an error). -/
theorem C7_queue_removal_spec :
    (∀ queue painted : List BlueMarble.PixelData,
      ∀ p ∈ BlueMarble.removePainted queue painted,
        BlueMarble.pixelKey p ∉ painted.map BlueMarble.pixelKey) ∧
    (∀ queue : List BlueMarble.PixelData, ∀ ks : List ((ℚ × ℚ) × (ℚ × ℚ)),
      BlueMarble.removeKeys (BlueMarble.removeKeys queue ks) ks =
        BlueMarble.removeKeys queue ks) ∧
    (∀ queue : List BlueMarble.PixelData, ∀ ks : List ((ℚ × ℚ) × (ℚ × ℚ)),
      (∀ p ∈ queue, BlueMarble.pixelKey p ∉ ks) →
        BlueMarble.removeKeys queue ks = queue) := by
  refine ⟨?_, ?_, ?_⟩
  · intro queue painted p hp
    have := List.of_mem_filter hp
    simpa using this
  · intro queue ks
    simp [BlueMarble.removeKeys, List.filter_filter]
  · intro queue ks h
    apply List.filter_eq_self.mpr
    intro p hp
    simpa using h p hp

/-- Witness for C7: removing the key of a one-element painted list from a
disjoint one-element queue is a no-op. -/
theorem C7_queue_removal_spec_witness :
    BlueMarble.removeKeys [⟨(0, 0), (1, 1), 5, 0⟩] [((0, 0), (2, 2))] =
      [⟨(0, 0), (1, 1), 5, 0⟩] :=
  C7_queue_removal_spec.2.2 [⟨(0, 0), (1, 1), 5, 0⟩] [((0, 0), (2, 2))]
    (by intro p hp; simp at hp; subst hp; simp [BlueMarble.pixelKey]; decide)

namespace BlueMarble

/-! ### Colour conversion and CIEDE2000 (`src/utils.js`).
These are exact real-number transcriptions of the JS float formulas; they are
used only for scoring, and the claims below depend only on the scoring
pipeline applied to the resulting ΔE value. -/

/-- CIEDE2000 parametric factors (all fixed to 1 in the source). -/
def K_L : ℝ := 1

/-- See `K_L`. -/
def K_C : ℝ := 1

/-- See `K_L`. -/
def K_H : ℝ := 1

/-- `Math.PI / 180`. -/
noncomputable def DEG_TO_RAD : ℝ := Real.pi / 180

/-- `180 / Math.PI`. -/
noncomputable def RAD_TO_DEG : ℝ := 180 / Real.pi

/-- `Math.pow(25, 7)`. -/
def POW25_7 : ℝ := 25 ^ (7 : ℕ)

/-- `Math.atan2(y, x)`: the principal argument of the point `(x, y)`,
in `(-π, π]`. -/
noncomputable def atan2 (y x : ℝ) : ℝ := Complex.arg ⟨x, y⟩

/-- `rgbToXyz` of `src/utils.js` (sRGB gamma decode, D65 matrix). -/
noncomputable def rgbToXyz (r g b : ℝ) : ℝ × ℝ × ℝ :=
  let r := r / 255
  let g := g / 255
  let b := b / 255
  let r := if r > 0.04045 then ((r + 0.055) / 1.055) ^ (2.4 : ℝ) else r / 12.92
  let g := if g > 0.04045 then ((g + 0.055) / 1.055) ^ (2.4 : ℝ) else g / 12.92
  let b := if b > 0.04045 then ((b + 0.055) / 1.055) ^ (2.4 : ℝ) else b / 12.92
  let r := r * 100
  let g := g * 100
  let b := b * 100
  (r * 0.4124564 + g * 0.3575761 + b * 0.1804375,
   r * 0.2126729 + g * 0.7151522 + b * 0.0721750,
   r * 0.0193339 + g * 0.1191920 + b * 0.9503041)

/-- `xyzToLab` of `src/utils.js` (D65 reference white). -/
noncomputable def xyzToLab (x y z : ℝ) : ℝ × ℝ × ℝ :=
  let refX : ℝ := 95.047
  let refY : ℝ := 100.000
  let refZ : ℝ := 108.883
  let x := x / refX
  let y := y / refY
  let z := z / refZ
  let x := if x > 0.008856 then x ^ ((1 : ℝ) / 3) else 7.787 * x + 16 / 116
  let y := if y > 0.008856 then y ^ ((1 : ℝ) / 3) else 7.787 * y + 16 / 116
  let z := if z > 0.008856 then z ^ ((1 : ℝ) / 3) else 7.787 * z + 16 / 116
  (116 * y - 16, 500 * (x - y), 200 * (y - z))

/-- `rgbToLab` of `src/utils.js`. -/
noncomputable def rgbToLab (r g b : ℝ) : ℝ × ℝ × ℝ :=
  let xyz := rgbToXyz r g b
  xyzToLab xyz.1 xyz.2.1 xyz.2.2

/-- `ciede2000` of `src/utils.js` (Sharma formulation), on `(l, a, b)`
triples. -/
noncomputable def ciede2000 (lab1 lab2 : ℝ × ℝ × ℝ) : ℝ :=
  let l1 := lab1.1
  let a1 := lab1.2.1
  let b1 := lab1.2.2
  let l2 := lab2.1
  let a2 := lab2.2.1
  let b2 := lab2.2.2
  let c1 := Real.sqrt (a1 * a1 + b1 * b1)
  let c2 := Real.sqrt (a2 * a2 + b2 * b2)
  let cBar := (c1 + c2) / 2
  let g := 0.5 * (1 - Real.sqrt (cBar ^ (7 : ℕ) / (cBar ^ (7 : ℕ) + POW25_7)))
  let a1Prime := (1 + g) * a1
  let a2Prime := (1 + g) * a2
  let c1Prime := Real.sqrt (a1Prime * a1Prime + b1 * b1)
  let c2Prime := Real.sqrt (a2Prime * a2Prime + b2 * b2)
  let h1Prime := atan2 b1 a1Prime * RAD_TO_DEG
  let h1Prime := if h1Prime < 0 then h1Prime + 360 else h1Prime
  let h2Prime := atan2 b2 a2Prime * RAD_TO_DEG
  let h2Prime := if h2Prime < 0 then h2Prime + 360 else h2Prime
  let deltaLPrime := l2 - l1
  let deltaCPrime := c2Prime - c1Prime
  let deltaHPrime :=
    if c1Prime * c2Prime = 0 then 0
    else
      let hDiff := h2Prime - h1Prime
      if |hDiff| ≤ 180 then hDiff
      else if hDiff > 180 then hDiff - 360
      else hDiff + 360
  let deltaHPrime :=
    2 * Real.sqrt (c1Prime * c2Prime) * Real.sin (deltaHPrime * DEG_TO_RAD / 2)
  let lBarPrime := (l1 + l2) / 2
  let cBarPrime := (c1Prime + c2Prime) / 2
  let hBarPrime :=
    if c1Prime * c2Prime = 0 then h1Prime + h2Prime
    else
      let hSum := h1Prime + h2Prime
      if |h1Prime - h2Prime| ≤ 180 then hSum / 2
      else if hSum < 360 then (hSum + 360) / 2
      else (hSum - 360) / 2
  let t := 1 - 0.17 * Real.cos ((hBarPrime - 30) * DEG_TO_RAD)
    + 0.24 * Real.cos (2 * hBarPrime * DEG_TO_RAD)
    + 0.32 * Real.cos ((3 * hBarPrime + 6) * DEG_TO_RAD)
    - 0.20 * Real.cos ((4 * hBarPrime - 63) * DEG_TO_RAD)
  let deltaTheta := 30 * Real.exp (-(((hBarPrime - 275) / 25) ^ (2 : ℕ)))
  let rC := 2 * Real.sqrt (cBarPrime ^ (7 : ℕ) / (cBarPrime ^ (7 : ℕ) + POW25_7))
  let sL := 1 + 0.015 * (lBarPrime - 50) ^ (2 : ℕ) /
    Real.sqrt (20 + (lBarPrime - 50) ^ (2 : ℕ))
  let sC := 1 + 0.045 * cBarPrime
  let sH := 1 + 0.015 * cBarPrime * t
  let rT := -Real.sin (2 * deltaTheta * DEG_TO_RAD) * rC
  let termL := deltaLPrime / (K_L * sL)
  let termC := deltaCPrime / (K_C * sC)
  let termH := deltaHPrime / (K_H * sH)
  Real.sqrt (termL * termL + termC * termC + termH * termH + rT * termC * termH)

/-- The `deltaE * 5000` rescaling that `calculateColorDifference` applies to
the CIEDE2000 output before it enters the priority computation. -/
noncomputable def scaledColorDifference (deltaE : ℝ) : ℝ := deltaE * 5000

/-- `calculateColorDifference` of `src/utils.js`: CIEDE2000 between two RGB
colours, scaled by 5000. -/
noncomputable def calculateColorDifference (rgb1 rgb2 : RGB) : ℝ :=
  let lab1 := rgbToLab (rgb1.r : ℝ) (rgb1.g : ℝ) (rgb1.b : ℝ)
  let lab2 := rgbToLab (rgb2.r : ℝ) (rgb2.g : ℝ) (rgb2.b : ℝ)
  scaledColorDifference (ciede2000 lab1 lab2)

/-! ### `analyzeTile` (`src/templateManager.js`): centre bonus, template
colour cache, and the per-pixel three-tier classification. -/

/-- `MAX_PRIORITY_SCORE` — cap for the colour-difference contribution, chosen
to balance against the centre bonus. -/
def MAX_PRIORITY_SCORE : ℝ := 500000

/-- The tier-3 colour score:
`Math.min(colorDifference / 100.0, 1.0) * MAX_PRIORITY_SCORE`. -/
noncomputable def colorPriorityOf (colorDifference : ℝ) : ℝ :=
  min (colorDifference / 100) 1 * MAX_PRIORITY_SCORE

/-- The centre-bonus term of `analyzeTile`: distance of `(x, y)` from the
centroid of the bounding rectangle, normalised by the rectangle's maximal
radius, inverted and scaled by 500000.  Coordinates are exact JS numbers
(`ℚ`); the distances go through `Math.sqrt`, hence `ℝ`. -/
noncomputable def centerBonus (minX minY maxX maxY x y : ℚ) : ℝ :=
  let centerX : ℚ := minX + (maxX - minX) / 2
  let centerY : ℚ := minY + (maxY - minY) / 2
  let maxDist : ℝ :=
    Real.sqrt (((maxX - centerX : ℚ) : ℝ) ^ (2 : ℕ) + ((maxY - centerY : ℚ) : ℝ) ^ (2 : ℕ))
  let distFromCenter : ℝ :=
    Real.sqrt (((x - centerX : ℚ) : ℝ) ^ (2 : ℕ) + ((y - centerY : ℚ) : ℝ) ^ (2 : ℕ))
  let normalizedDist : ℝ := if maxDist > 0 then distFromCenter / maxDist else 0
  (1 - normalizedDist) * 500000

/-- JavaScript ToInt32 (the value of a 32-bit bitwise expression). -/
def toInt32 (n : ℤ) : ℤ :=
  if n % (2 ^ 32 : ℤ) ≥ 2 ^ 31 then n % (2 ^ 32 : ℤ) - 2 ^ 32 else n % (2 ^ 32 : ℤ)

/-- The memoisation key
`(templateAlpha << 24) | (templateB << 16) | (templateG << 8) | templateR`:
for byte-range components the OR of the disjoint shifted fields is exactly the
packed value below, and JS evaluates the expression as a signed 32-bit
integer. -/
def templateColorKey (alpha b g r : ℤ) : ℤ :=
  toInt32 (alpha * 2 ^ 24 + b * 2 ^ 16 + g * 2 ^ 8 + r)

/-- The manager's `templateColorCache` (a `Map` from key to colour id),
modelled as an association list in insertion order. -/
abbrev TemplateColorCache := List (ℤ × ℤ)

/-- `this.templateColorCache.has(key)` / `.get(key)` combined. -/
def cacheLookup (cache : TemplateColorCache) (key : ℤ) : Option ℤ :=
  (cache.find? (fun e => decide (e.1 = key))).map Prod.snd

/-- The cached template-colour conversion of `analyzeTile`: on a miss,
`findClosestColor` is computed and stored under the exact
(alpha, R, G, B) key. Returns the colour id and the updated cache. -/
def resolveTemplateColor (cache : TemplateColorCache) (alpha r g b : ℤ) :
    ℤ × TemplateColorCache :=
  let key := templateColorKey alpha b g r
  match cacheLookup cache key with
  | some targetColorId => (targetColorId, cache)
  | none =>
    let targetColorId := findClosestColor ⟨r, g, b⟩
    (targetColorId, (key, targetColorId) :: cache)

/-- One RGBA centre sample read from a scaled raster. -/
structure Sample where
  r : ℤ
  g : ℤ
  b : ℤ
  alpha : ℤ

/-- The loop body of `analyzeTile` for one pixel `(x, y)`: classifies the
(template, game) centre-sample pair into grief-clean / new-placement /
colour-correction / no candidate, returning the optional queue entry and the
updated template-colour cache. -/
noncomputable def classifyPixel (analyzeTransparentPixels : Bool)
    (cache : TemplateColorCache) (tileCoords : ℚ × ℚ)
    (minX minY maxX maxY x y : ℚ) (tmpl game : Sample) :
    Option PixelData × TemplateColorCache :=
  if analyzeTransparentPixels ∧ tmpl.alpha < 128 ∧ game.alpha > 0 then
    (some ⟨tileCoords, (x, y), 0, 2000000⟩, cache)
  else if tmpl.alpha > 128 then
    let isTransparent := game.alpha < 128
    let resolved := resolveTemplateColor cache tmpl.alpha tmpl.r tmpl.g tmpl.b
    let targetColorId := resolved.1
    let cache' := resolved.2
    let isWrongColor :=
      ¬isTransparent ∧ findClosestColor ⟨game.r, game.g, game.b⟩ ≠ targetColorId
    if isTransparent ∨ isWrongColor then
      let bonus := centerBonus minX minY maxX maxY x y
      if game.alpha < 128 then
        (some ⟨tileCoords, (x, y), targetColorId, 1000000 + bonus⟩, cache')
      else
        let colorDifference :=
          calculateColorDifference ⟨game.r, game.g, game.b⟩ ⟨tmpl.r, tmpl.g, tmpl.b⟩
        let colorPriority := colorPriorityOf colorDifference
        (some ⟨tileCoords, (x, y), targetColorId, colorPriority + bonus⟩, cache')
    else (none, cache')
  else (none, cache)

/-- One pixel position of the scan: loop coordinates and the two centre
samples read at its scaled index. -/
structure TilePixel where
  x : ℚ
  y : ℚ
  tmpl : Sample
  game : Sample

/-- The double loop of `analyzeTile` over the bounding rectangle, threading
the manager's template-colour cache and collecting `newPixelsForQueue`. -/
noncomputable def analyzeTileLoop (analyzeTransparentPixels : Bool)
    (tileCoords : ℚ × ℚ) (minX minY maxX maxY : ℚ) :
    TemplateColorCache → List TilePixel → List PixelData × TemplateColorCache
  | cache, [] => ([], cache)
  | cache, px :: rest =>
    let step := classifyPixel analyzeTransparentPixels cache tileCoords
      minX minY maxX maxY px.x px.y px.tmpl px.game
    let tail := analyzeTileLoop analyzeTransparentPixels tileCoords
      minX minY maxX maxY step.2 rest
    (match step.1 with
     | some pixelData => pixelData :: tail.1
     | none => tail.1, tail.2)

/-- Cache threading at the manager level: `analyzeTile` reads and mutates
`this.templateColorCache`, which is initialised once in the constructor and
never cleared, so invocation `n + 1` of `analyzeTile` begins with exactly the
cache that invocation `n` ended with.  This definition names that
start-of-next-invocation cache. -/
noncomputable def cacheAfterPass (analyzeTransparentPixels : Bool)
    (tileCoords : ℚ × ℚ) (minX minY maxX maxY : ℚ)
    (cache : TemplateColorCache) (pixels : List TilePixel) : TemplateColorCache :=
  (analyzeTileLoop analyzeTransparentPixels tileCoords minX minY maxX maxY
    cache pixels).2

/-! ### Bounds on the centre bonus and the colour score. -/

lemma centerBonus_le (minX minY maxX maxY x y : ℚ) :
    centerBonus minX minY maxX maxY x y ≤ 500000 := by
  dsimp only [centerBonus]
  split_ifs with h
  · have hnd : 0 ≤
        Real.sqrt (((x - (minX + (maxX - minX) / 2) : ℚ) : ℝ) ^ (2 : ℕ)
            + ((y - (minY + (maxY - minY) / 2) : ℚ) : ℝ) ^ (2 : ℕ)) /
          Real.sqrt (((maxX - (minX + (maxX - minX) / 2) : ℚ) : ℝ) ^ (2 : ℕ)
            + ((maxY - (minY + (maxY - minY) / 2) : ℚ) : ℝ) ^ (2 : ℕ)) :=
      div_nonneg (Real.sqrt_nonneg _) (le_of_lt h)
    nlinarith [hnd]
  · norm_num

lemma centerBonus_nonneg (minX minY maxX maxY x y : ℚ)
    (hx1 : minX ≤ x) (hx2 : x ≤ maxX) (hy1 : minY ≤ y) (hy2 : y ≤ maxY) :
    0 ≤ centerBonus minX minY maxX maxY x y := by
  dsimp only [centerBonus]
  split_ifs with h
  · have key : (((x - (minX + (maxX - minX) / 2) : ℚ) : ℝ) ^ (2 : ℕ)
          + ((y - (minY + (maxY - minY) / 2) : ℚ) : ℝ) ^ (2 : ℕ)) ≤
        (((maxX - (minX + (maxX - minX) / 2) : ℚ) : ℝ) ^ (2 : ℕ)
          + ((maxY - (minY + (maxY - minY) / 2) : ℚ) : ℝ) ^ (2 : ℕ)) := by
      have hx1' : ((minX : ℝ)) ≤ ((x : ℝ)) := by exact_mod_cast hx1
      have hx2' : ((x : ℝ)) ≤ ((maxX : ℝ)) := by exact_mod_cast hx2
      have hy1' : ((minY : ℝ)) ≤ ((y : ℝ)) := by exact_mod_cast hy1
      have hy2' : ((y : ℝ)) ≤ ((maxY : ℝ)) := by exact_mod_cast hy2
      push_cast
      nlinarith [mul_nonneg (sub_nonneg.mpr hx2') (sub_nonneg.mpr hx1'),
        mul_nonneg (sub_nonneg.mpr hy2') (sub_nonneg.mpr hy1')]
    have hle : Real.sqrt (((x - (minX + (maxX - minX) / 2) : ℚ) : ℝ) ^ (2 : ℕ)
          + ((y - (minY + (maxY - minY) / 2) : ℚ) : ℝ) ^ (2 : ℕ)) ≤
        Real.sqrt (((maxX - (minX + (maxX - minX) / 2) : ℚ) : ℝ) ^ (2 : ℕ)
          + ((maxY - (minY + (maxY - minY) / 2) : ℚ) : ℝ) ^ (2 : ℕ)) :=
      Real.sqrt_le_sqrt key
    have hnd : Real.sqrt (((x - (minX + (maxX - minX) / 2) : ℚ) : ℝ) ^ (2 : ℕ)
          + ((y - (minY + (maxY - minY) / 2) : ℚ) : ℝ) ^ (2 : ℕ)) /
        Real.sqrt (((maxX - (minX + (maxX - minX) / 2) : ℚ) : ℝ) ^ (2 : ℕ)
          + ((maxY - (minY + (maxY - minY) / 2) : ℚ) : ℝ) ^ (2 : ℕ)) ≤ 1 :=
      (div_le_one h).mpr hle
    nlinarith [hnd]
  · norm_num

lemma colorPriorityOf_le (colorDifference : ℝ) :
    colorPriorityOf colorDifference ≤ 500000 := by
  dsimp only [colorPriorityOf, MAX_PRIORITY_SCORE]
  nlinarith [min_le_right (colorDifference / 100) (1 : ℝ)]

/-! ### Classification equations (one per tier). -/

lemma classifyPixel_grief (cache : TemplateColorCache) (tileCoords : ℚ × ℚ)
    (minX minY maxX maxY x y : ℚ) (tmpl game : Sample)
    (h1 : tmpl.alpha < 128) (h2 : game.alpha > 0) :
    classifyPixel true cache tileCoords minX minY maxX maxY x y tmpl game =
      (some ⟨tileCoords, (x, y), 0, 2000000⟩, cache) := by
  simp [classifyPixel, h1, h2]

lemma classifyPixel_newPlacement (analyzeTransparentPixels : Bool)
    (cache : TemplateColorCache) (tileCoords : ℚ × ℚ)
    (minX minY maxX maxY x y : ℚ) (tmpl game : Sample)
    (h1 : tmpl.alpha > 128) (h2 : game.alpha < 128) :
    classifyPixel analyzeTransparentPixels cache tileCoords minX minY maxX maxY
        x y tmpl game =
      (some ⟨tileCoords, (x, y),
        (resolveTemplateColor cache tmpl.alpha tmpl.r tmpl.g tmpl.b).1,
        1000000 + centerBonus minX minY maxX maxY x y⟩,
       (resolveTemplateColor cache tmpl.alpha tmpl.r tmpl.g tmpl.b).2) := by
  have hng : ¬tmpl.alpha < 128 := by omega
  simp [classifyPixel, hng, h1, h2]

lemma classifyPixel_correction (analyzeTransparentPixels : Bool)
    (cache : TemplateColorCache) (tileCoords : ℚ × ℚ)
    (minX minY maxX maxY x y : ℚ) (tmpl game : Sample)
    (h1 : tmpl.alpha > 128) (h2 : ¬game.alpha < 128)
    (h3 : findClosestColor ⟨game.r, game.g, game.b⟩ ≠
      (resolveTemplateColor cache tmpl.alpha tmpl.r tmpl.g tmpl.b).1) :
    classifyPixel analyzeTransparentPixels cache tileCoords minX minY maxX maxY
        x y tmpl game =
      (some ⟨tileCoords, (x, y),
        (resolveTemplateColor cache tmpl.alpha tmpl.r tmpl.g tmpl.b).1,
        colorPriorityOf (calculateColorDifference ⟨game.r, game.g, game.b⟩
          ⟨tmpl.r, tmpl.g, tmpl.b⟩) + centerBonus minX minY maxX maxY x y⟩,
       (resolveTemplateColor cache tmpl.alpha tmpl.r tmpl.g tmpl.b).2) := by
  have hng : ¬tmpl.alpha < 128 := by omega
  have hga : game.alpha > 0 := by omega
  simp [classifyPixel, hng, h1, h2, h3]

lemma classifyPixel_match_none (analyzeTransparentPixels : Bool)
    (cache : TemplateColorCache) (tileCoords : ℚ × ℚ)
    (minX minY maxX maxY x y : ℚ) (tmpl game : Sample)
    (h1 : tmpl.alpha > 128) (h2 : ¬game.alpha < 128)
    (h3 : findClosestColor ⟨game.r, game.g, game.b⟩ =
      (resolveTemplateColor cache tmpl.alpha tmpl.r tmpl.g tmpl.b).1) :
    classifyPixel analyzeTransparentPixels cache tileCoords minX minY maxX maxY
        x y tmpl game =
      (none, (resolveTemplateColor cache tmpl.alpha tmpl.r tmpl.g tmpl.b).2) := by
  have hng : ¬tmpl.alpha < 128 := by omega
  simp [classifyPixel, hng, h1, h2, h3]

lemma classifyPixel_transparent_none (analyzeTransparentPixels : Bool)
    (cache : TemplateColorCache) (tileCoords : ℚ × ℚ)
    (minX minY maxX maxY x y : ℚ) (tmpl game : Sample)
    (h1 : ¬(analyzeTransparentPixels ∧ tmpl.alpha < 128 ∧ game.alpha > 0))
    (h2 : ¬tmpl.alpha > 128) :
    classifyPixel analyzeTransparentPixels cache tileCoords minX minY maxX maxY
        x y tmpl game = (none, cache) := by
  simp only [classifyPixel, if_neg h1, if_neg h2]

/-! ### Cache coherence. -/

/-- All components of a raster sample are bytes (always true for `ImageData`
reads). -/
def SampleBytes (s : Sample) : Prop :=
  0 ≤ s.r ∧ s.r ≤ 255 ∧ 0 ≤ s.g ∧ s.g ≤ 255 ∧ 0 ≤ s.b ∧ s.b ≤ 255 ∧
    0 ≤ s.alpha ∧ s.alpha ≤ 255

/-- A cache state is coherent when every stored entry holds exactly the value
`findClosestColor` returns for the RGB encoded in its key. -/
def CacheCoherent (cache : TemplateColorCache) : Prop :=
  ∀ e ∈ cache, ∀ a r g b : ℤ,
    0 ≤ a → a ≤ 255 → 0 ≤ r → r ≤ 255 → 0 ≤ g → g ≤ 255 → 0 ≤ b → b ≤ 255 →
    e.1 = templateColorKey a b g r → e.2 = findClosestColor ⟨r, g, b⟩

/-- The packed `(alpha << 24) | (b << 16) | (g << 8) | r` key is injective on
byte quadruples. -/
lemma templateColorKey_inj (a b g r a' b' g' r' : ℤ)
    (ha : 0 ≤ a) (ha2 : a ≤ 255) (hb : 0 ≤ b) (hb2 : b ≤ 255)
    (hg : 0 ≤ g) (hg2 : g ≤ 255) (hr : 0 ≤ r) (hr2 : r ≤ 255)
    (ha' : 0 ≤ a') (ha2' : a' ≤ 255) (hb' : 0 ≤ b') (hb2' : b' ≤ 255)
    (hg' : 0 ≤ g') (hg2' : g' ≤ 255) (hr' : 0 ≤ r') (hr2' : r' ≤ 255)
    (h : templateColorKey a b g r = templateColorKey a' b' g' r') :
    a = a' ∧ b = b' ∧ g = g' ∧ r = r' := by
  simp only [templateColorKey, toInt32] at h
  split_ifs at h <;> omega

lemma cacheLookup_some (cache : TemplateColorCache) (k v : ℤ)
    (h : cacheLookup cache k = some v) :
    ∃ e ∈ cache, e.1 = k ∧ e.2 = v := by
  unfold cacheLookup at h
  cases hf : cache.find? (fun e => decide (e.1 = k)) with
  | none => rw [hf] at h; simp at h
  | some e =>
    rw [hf] at h
    simp only [Option.map_some', Option.some.injEq] at h
    refine ⟨e, List.mem_of_find?_eq_some hf, ?_, h⟩
    have := List.find?_some hf
    simpa using this

/-- On a coherent cache, the cached conversion returns exactly
`findClosestColor` of the template RGB, and coherence is preserved. -/
lemma resolveTemplateColor_correct (cache : TemplateColorCache)
    (hc : CacheCoherent cache) (a r g b : ℤ)
    (ha : 0 ≤ a) (ha2 : a ≤ 255) (hr : 0 ≤ r) (hr2 : r ≤ 255)
    (hg : 0 ≤ g) (hg2 : g ≤ 255) (hb : 0 ≤ b) (hb2 : b ≤ 255) :
    (resolveTemplateColor cache a r g b).1 = findClosestColor ⟨r, g, b⟩ ∧
    CacheCoherent (resolveTemplateColor cache a r g b).2 := by
  cases hfind : cacheLookup cache (templateColorKey a b g r) with
  | none =>
    have h1 : (resolveTemplateColor cache a r g b).1 = findClosestColor ⟨r, g, b⟩ := by
      simp [resolveTemplateColor, hfind]
    have h2 : (resolveTemplateColor cache a r g b).2 =
        (templateColorKey a b g r, findClosestColor ⟨r, g, b⟩) :: cache := by
      simp [resolveTemplateColor, hfind]
    refine ⟨h1, ?_⟩
    rw [h2]
    intro e he a2 r2 g2 b2 ha2l ha2u hr2l hr2u hg2l hg2u hb2l hb2u hkey
    rcases List.mem_cons.mp he with rfl | hmem
    · obtain ⟨hea, heb, heg, her⟩ := templateColorKey_inj a2 b2 g2 r2 a b g r
        ha2l ha2u hb2l hb2u hg2l hg2u hr2l hr2u ha ha2 hb hb2 hg hg2 hr hr2
        hkey.symm
      subst her
      subst heg
      subst heb
      rfl
    · exact hc e hmem a2 r2 g2 b2 ha2l ha2u hr2l hr2u hg2l hg2u hb2l hb2u hkey
  | some v =>
    have h1 : (resolveTemplateColor cache a r g b).1 = v := by
      simp [resolveTemplateColor, hfind]
    have h2 : (resolveTemplateColor cache a r g b).2 = cache := by
      simp [resolveTemplateColor, hfind]
    obtain ⟨e, hmem, hek, hev⟩ := cacheLookup_some cache _ v hfind
    refine ⟨?_, by rw [h2]; exact hc⟩
    rw [h1, ← hev]
    exact hc e hmem a r g b ha ha2 hr hr2 hg hg2 hb hb2 hek

/-- The cache after one classification step is either untouched or the result
of one cached conversion. -/
lemma classifyPixel_cache_cases (analyzeTransparentPixels : Bool)
    (cache : TemplateColorCache) (tileCoords : ℚ × ℚ)
    (minX minY maxX maxY x y : ℚ) (tmpl game : Sample) :
    (classifyPixel analyzeTransparentPixels cache tileCoords minX minY maxX maxY
        x y tmpl game).2 = cache ∨
    (classifyPixel analyzeTransparentPixels cache tileCoords minX minY maxX maxY
        x y tmpl game).2 =
      (resolveTemplateColor cache tmpl.alpha tmpl.r tmpl.g tmpl.b).2 := by
  by_cases h1 : analyzeTransparentPixels = true ∧ tmpl.alpha < 128 ∧ game.alpha > 0
  · left
    simp only [classifyPixel, if_pos h1]
  · by_cases h2 : tmpl.alpha > 128
    · by_cases h3 : game.alpha < 128
      · right
        rw [classifyPixel_newPlacement analyzeTransparentPixels cache tileCoords
          minX minY maxX maxY x y tmpl game h2 h3]
      · by_cases h4 : findClosestColor ⟨game.r, game.g, game.b⟩ =
            (resolveTemplateColor cache tmpl.alpha tmpl.r tmpl.g tmpl.b).1
        · right
          rw [classifyPixel_match_none analyzeTransparentPixels cache tileCoords
            minX minY maxX maxY x y tmpl game h2 h3 h4]
        · right
          rw [classifyPixel_correction analyzeTransparentPixels cache tileCoords
            minX minY maxX maxY x y tmpl game h2 h3 h4]
    · left
      rw [classifyPixel_transparent_none analyzeTransparentPixels cache tileCoords
        minX minY maxX maxY x y tmpl game h1 h2]

/-- Coherence is preserved by every classification step. -/
lemma classifyPixel_cache_coherent (analyzeTransparentPixels : Bool)
    (cache : TemplateColorCache) (tileCoords : ℚ × ℚ)
    (minX minY maxX maxY x y : ℚ) (tmpl game : Sample)
    (hc : CacheCoherent cache) (hb : SampleBytes tmpl) :
    CacheCoherent (classifyPixel analyzeTransparentPixels cache tileCoords
      minX minY maxX maxY x y tmpl game).2 := by
  obtain ⟨hr1, hr2, hg1, hg2, hb1, hb2, ha1, ha2⟩ := hb
  rcases classifyPixel_cache_cases analyzeTransparentPixels cache tileCoords
      minX minY maxX maxY x y tmpl game with h | h
  · rw [h]; exact hc
  · rw [h]
    exact (resolveTemplateColor_correct cache hc tmpl.alpha tmpl.r tmpl.g tmpl.b
      ha1 ha2 hr1 hr2 hg1 hg2 hb1 hb2).2

/-- Coherence is preserved by a whole analysis pass. -/
lemma analyzeTileLoop_cache_coherent (analyzeTransparentPixels : Bool)
    (tileCoords : ℚ × ℚ) (minX minY maxX maxY : ℚ) :
    ∀ (pixels : List TilePixel) (cache : TemplateColorCache),
    CacheCoherent cache → (∀ px ∈ pixels, SampleBytes px.tmpl) →
    CacheCoherent (analyzeTileLoop analyzeTransparentPixels tileCoords
      minX minY maxX maxY cache pixels).2 := by
  intro pixels
  induction pixels with
  | nil => intro cache hc _; exact hc
  | cons px rest ih =>
    intro cache hc hb
    have hc1 := classifyPixel_cache_coherent analyzeTransparentPixels cache
      tileCoords minX minY maxX maxY px.x px.y px.tmpl px.game hc
      (hb px (List.mem_cons_self px rest))
    have := ih _ hc1 (fun q hq => hb q (List.mem_cons_of_mem px hq))
    simpa [analyzeTileLoop] using this

/-! ### Nonnegativity of the colour score. -/

lemma ciede2000_nonneg (lab1 lab2 : ℝ × ℝ × ℝ) : 0 ≤ ciede2000 lab1 lab2 := by
  dsimp only [ciede2000]
  exact Real.sqrt_nonneg _

lemma calculateColorDifference_nonneg (rgb1 rgb2 : RGB) :
    0 ≤ calculateColorDifference rgb1 rgb2 := by
  dsimp only [calculateColorDifference, scaledColorDifference]
  nlinarith [ciede2000_nonneg (rgbToLab (rgb1.r : ℝ) (rgb1.g : ℝ) (rgb1.b : ℝ))
    (rgbToLab (rgb2.r : ℝ) (rgb2.g : ℝ) (rgb2.b : ℝ))]

lemma colorPriorityOf_nonneg (colorDifference : ℝ) (h : 0 ≤ colorDifference) :
    0 ≤ colorPriorityOf colorDifference := by
  dsimp only [colorPriorityOf, MAX_PRIORITY_SCORE]
  have : (0 : ℝ) ≤ min (colorDifference / 100) 1 :=
    le_min (by positivity) (by norm_num)
  nlinarith [this]

/-- The first non-transparent palette entry is always a real id: the loop
result is in 1 … 63. -/
lemma findClosestColor_range (rgb : RGB) :
    1 ≤ findClosestColor rgb ∧ findClosestColor rgb ≤ 63 := by
  have hcons := paletteTail_cons
  have h0 := findClosestColor_eq_go rgb
  obtain ⟨k, hk, heq, hle, hfirst⟩ :=
    findClosestColorGo_none_spec rgb (0, 0, 0) paletteTail.tail 1 one_ne_zero
  rw [← hcons] at hk heq
  rw [paletteTail_length] at hk
  have hval : findClosestColor rgb = ((k + 1 : ℕ) : ℤ) := by
    rw [h0, heq]; congr 1; omega
  rw [hval]
  constructor
  · exact_mod_cast Nat.succ_le_succ (Nat.zero_le k)
  · exact_mod_cast Nat.succ_le_of_lt hk

end BlueMarble

/-- C3 counterexample: the template-colour memo is an instance field,
initialised once in the `TemplateManager` constructor and never cleared, so an
`analyzeTile` pass leaves its conversions in the cache the next invocation
starts from.  Concretely: one pass over a single opaque red template pixel on
a transparent tile, started on an empty cache, hands the next invocation a
non-empty cache — refuting "every later invocation of analyzeTile begins with
no cached conversions left over from earlier invocations". -/
theorem C3_cache_counterexample :
    BlueMarble.cacheAfterPass false (0, 0) 0 0 1 1 []
        [⟨0, 0, ⟨255, 0, 0, 255⟩, ⟨0, 0, 0, 0⟩⟩] =
      [(BlueMarble.templateColorKey 255 0 0 255,
        BlueMarble.findClosestColor ⟨255, 0, 0⟩)] ∧
    BlueMarble.cacheAfterPass false (0, 0) 0 0 1 1 []
        [⟨0, 0, ⟨255, 0, 0, 255⟩, ⟨0, 0, 0, 0⟩⟩] ≠ [] := by
  have hres : (BlueMarble.resolveTemplateColor [] 255 255 0 0).2 =
      [(BlueMarble.templateColorKey 255 0 0 255,
        BlueMarble.findClosestColor ⟨255, 0, 0⟩)] := by
    simp [BlueMarble.resolveTemplateColor, BlueMarble.cacheLookup]
  have hcls := BlueMarble.classifyPixel_newPlacement false [] (0, 0) 0 0 1 1 0 0
    ⟨255, 0, 0, 255⟩ ⟨0, 0, 0, 0⟩ (by norm_num) (by norm_num)
  have heq : BlueMarble.cacheAfterPass false (0, 0) 0 0 1 1 []
      [⟨0, 0, ⟨255, 0, 0, 255⟩, ⟨0, 0, 0, 0⟩⟩] =
      [(BlueMarble.templateColorKey 255 0 0 255,
        BlueMarble.findClosestColor ⟨255, 0, 0⟩)] := by
    unfold BlueMarble.cacheAfterPass
    simp only [BlueMarble.analyzeTileLoop, hcls, hres]
  exact ⟨heq, by rw [heq]; exact List.cons_ne_nil _ _⟩

/-- C3 amended: template→palette conversions are memoised per exact
(alpha, R, G, B) key in a cache owned by the manager for its whole lifetime —
it persists across `analyzeTile` invocations rather than being reset per pass
— and the memo is correct: a hit returns the stored id without touching the
cache, on a coherent cache the resolved id is always exactly
`findClosestColor` of that RGB, and coherence is preserved by every whole
analysis pass (so it holds across successive passes started from the
previous pass's cache). -/
theorem C3_cache_memoization_amended :
    (∀ (cache : BlueMarble.TemplateColorCache) (a r g b v : ℤ),
      BlueMarble.cacheLookup cache (BlueMarble.templateColorKey a b g r) = some v →
      BlueMarble.resolveTemplateColor cache a r g b = (v, cache)) ∧
    (∀ cache : BlueMarble.TemplateColorCache, BlueMarble.CacheCoherent cache →
      ∀ a r g b : ℤ, 0 ≤ a → a ≤ 255 → 0 ≤ r → r ≤ 255 → 0 ≤ g → g ≤ 255 →
        0 ≤ b → b ≤ 255 →
      (BlueMarble.resolveTemplateColor cache a r g b).1 =
        BlueMarble.findClosestColor ⟨r, g, b⟩ ∧
      BlueMarble.CacheCoherent (BlueMarble.resolveTemplateColor cache a r g b).2) ∧
    (∀ (flag : Bool) (tc : ℚ × ℚ) (minX minY maxX maxY : ℚ)
       (pixels : List BlueMarble.TilePixel) (cache : BlueMarble.TemplateColorCache),
      BlueMarble.CacheCoherent cache →
      (∀ px ∈ pixels, BlueMarble.SampleBytes px.tmpl) →
      BlueMarble.CacheCoherent
        (BlueMarble.cacheAfterPass flag tc minX minY maxX maxY cache pixels)) := by
  refine ⟨?_, ?_, ?_⟩
  · intro cache a r g b v h
    simp [BlueMarble.resolveTemplateColor, h]
  · intro cache hc a r g b ha ha2 hr hr2 hg hg2 hb hb2
    exact BlueMarble.resolveTemplateColor_correct cache hc a r g b
      ha ha2 hr hr2 hg hg2 hb hb2
  · intro flag tc minX minY maxX maxY pixels cache hc hb
    exact BlueMarble.analyzeTileLoop_cache_coherent flag tc minX minY maxX maxY
      pixels cache hc hb

/-- Witness for the amended C3 at concrete inputs: a hit on the cached key of
(alpha, R, G, B) = (0,0,0,0) returns the stored id 5 and leaves the cache
untouched. -/
theorem C3_cache_memoization_amended_witness :
    BlueMarble.resolveTemplateColor [(BlueMarble.templateColorKey 0 0 0 0, 5)]
      0 0 0 0 = (5, [(BlueMarble.templateColorKey 0 0 0 0, 5)]) :=
  C3_cache_memoization_amended.1 [(BlueMarble.templateColorKey 0 0 0 0, 5)]
    0 0 0 0 5 (by decide)

/-- C4: with `analyzeTransparentPixels` enabled, a template centre sample with
alpha below 128 over a live centre sample with alpha above 0 yields exactly
one candidate: erase (`colorId = 0`) at the fixed top tier 2 000 000, with the
cache untouched — and this grief-clean branch wins whatever the colour data
would say (the equation holds for every sample payload). -/
theorem C4_grief_clean_spec (cache : BlueMarble.TemplateColorCache)
    (tileCoords : ℚ × ℚ) (minX minY maxX maxY x y : ℚ)
    (tmpl game : BlueMarble.Sample)
    (h1 : tmpl.alpha < 128) (h2 : game.alpha > 0) :
    BlueMarble.classifyPixel true cache tileCoords minX minY maxX maxY x y
        tmpl game =
      (some ⟨tileCoords, (x, y), 0, 2000000⟩, cache) :=
  BlueMarble.classifyPixel_grief cache tileCoords minX minY maxX maxY x y
    tmpl game h1 h2

/-- Witness for C4: a transparent template pixel over an opaque live pixel. -/
theorem C4_grief_clean_spec_witness :
    BlueMarble.classifyPixel true [] (0, 0) 0 0 1 1 0 0 ⟨0, 0, 0, 0⟩
        ⟨5, 5, 5, 255⟩ =
      (some ⟨(0, 0), (0, 0), 0, 2000000⟩, []) :=
  C4_grief_clean_spec [] (0, 0) 0 0 1 1 0 0 ⟨0, 0, 0, 0⟩ ⟨5, 5, 5, 255⟩
    (by norm_num) (by norm_num)

/-- C5: an opaque template centre sample (alpha > 128) over a transparent live
centre sample (alpha < 128) yields a candidate whose colour is the cached
nearest palette colour of the template RGB (equal to `findClosestColor` on a
coherent cache) and whose priority is 1 000 000 plus the centre bonus; inside
the scanned rectangle that priority lies in [1 000 000, 2 000 000) — whatever
the grief-clean flag is, in particular when it is disabled. -/
theorem C5_new_placement_spec (analyzeTransparentPixels : Bool)
    (cache : BlueMarble.TemplateColorCache) (tileCoords : ℚ × ℚ)
    (minX minY maxX maxY x y : ℚ) (tmpl game : BlueMarble.Sample)
    (h1 : tmpl.alpha > 128) (h2 : game.alpha < 128) :
    (BlueMarble.classifyPixel analyzeTransparentPixels cache tileCoords
        minX minY maxX maxY x y tmpl game =
      (some ⟨tileCoords, (x, y),
        (BlueMarble.resolveTemplateColor cache tmpl.alpha tmpl.r tmpl.g tmpl.b).1,
        1000000 + BlueMarble.centerBonus minX minY maxX maxY x y⟩,
       (BlueMarble.resolveTemplateColor cache tmpl.alpha tmpl.r tmpl.g tmpl.b).2)) ∧
    (BlueMarble.CacheCoherent cache → BlueMarble.SampleBytes tmpl →
      (BlueMarble.resolveTemplateColor cache tmpl.alpha tmpl.r tmpl.g tmpl.b).1 =
        BlueMarble.findClosestColor ⟨tmpl.r, tmpl.g, tmpl.b⟩) ∧
    (minX ≤ x → x ≤ maxX → minY ≤ y → y ≤ maxY →
      1000000 ≤ 1000000 + BlueMarble.centerBonus minX minY maxX maxY x y ∧
      1000000 + BlueMarble.centerBonus minX minY maxX maxY x y < 2000000) := by
  refine ⟨BlueMarble.classifyPixel_newPlacement analyzeTransparentPixels cache
    tileCoords minX minY maxX maxY x y tmpl game h1 h2, ?_, ?_⟩
  · intro hc hb
    obtain ⟨hr1, hr2, hg1, hg2, hb1, hb2, ha1, ha2⟩ := hb
    exact (BlueMarble.resolveTemplateColor_correct cache hc tmpl.alpha tmpl.r
      tmpl.g tmpl.b ha1 ha2 hr1 hr2 hg1 hg2 hb1 hb2).1
  · intro hx1 hx2 hy1 hy2
    constructor
    · linarith [BlueMarble.centerBonus_nonneg minX minY maxX maxY x y hx1 hx2 hy1 hy2]
    · linarith [BlueMarble.centerBonus_le minX minY maxX maxY x y]

/-- Witness for C5: a red opaque template pixel over a transparent live pixel
at the rectangle's corner, grief-clean disabled. -/
theorem C5_new_placement_spec_witness :
    1000000 ≤ 1000000 + BlueMarble.centerBonus 0 0 1 1 0 0 ∧
    1000000 + BlueMarble.centerBonus 0 0 1 1 0 0 < 2000000 :=
  (C5_new_placement_spec false [] (0, 0) 0 0 1 1 0 0 ⟨255, 0, 0, 255⟩
    ⟨0, 0, 0, 0⟩ (by norm_num) (by norm_num)).2.2
    (by norm_num) (by norm_num) (by norm_num) (by norm_num)

/-- C2 counterexample: strict ordering of distinct CIEDE2000 distances is NOT
preserved by the colour-correction score.  The cap is applied to the
already-×5000-rescaled value (`min(colorDifference / 100, 1)`), so it
saturates at ΔE = 0.02: the distinct distances ΔE = 1 and ΔE = 2 (with equal
centre bonus 0) produce the same priority, refuting "distinct distances keep
their relative order in the resulting scores". -/
theorem C2_color_order_counterexample :
    ((0 : ℝ) ≤ 1 ∧ (1 : ℝ) < 2 ∧
      BlueMarble.colorPriorityOf (BlueMarble.scaledColorDifference 1) + 0 =
        BlueMarble.colorPriorityOf (BlueMarble.scaledColorDifference 2) + 0) ∧
    ¬(∀ d1 d2 bonus : ℝ, 0 ≤ d1 → d1 < d2 →
      BlueMarble.colorPriorityOf (BlueMarble.scaledColorDifference d1) + bonus <
        BlueMarble.colorPriorityOf (BlueMarble.scaledColorDifference d2) + bonus) := by
  have h1 : BlueMarble.colorPriorityOf (BlueMarble.scaledColorDifference 1) =
      500000 := by
    have : min ((1 : ℝ) * 5000 / 100) 1 = 1 := min_eq_right (by norm_num)
    simp only [BlueMarble.colorPriorityOf, BlueMarble.scaledColorDifference,
      BlueMarble.MAX_PRIORITY_SCORE, this]
    norm_num
  have h2 : BlueMarble.colorPriorityOf (BlueMarble.scaledColorDifference 2) =
      500000 := by
    have : min ((2 : ℝ) * 5000 / 100) 1 = 1 := min_eq_right (by norm_num)
    simp only [BlueMarble.colorPriorityOf, BlueMarble.scaledColorDifference,
      BlueMarble.MAX_PRIORITY_SCORE, this]
    norm_num
  refine ⟨⟨by norm_num, by norm_num, by rw [h1, h2]⟩, ?_⟩
  intro h
  have := h 1 2 0 (by norm_num) (by norm_num)
  rw [h1, h2] at this
  exact lt_irrefl _ this

/-- C2 amended: for equal centre bonus, the colour-correction priority is the
CIEDE2000 distance rescaled by 5000, normalised and capped against the fixed
ceiling, added to the bonus (first conjunct, the tier-3 equation of
`classifyPixel`); the rescaling preserves ordering non-strictly — a strictly
larger distance never yields a strictly smaller priority — strictly so while
the rescaled distance stays at or below the ceiling 100 (ΔE ≤ 0.02), while
all distances whose rescaled value reaches the ceiling collapse to the same
capped score. -/
theorem C2_color_priority_amended :
    (∀ (analyzeTransparentPixels : Bool) (cache : BlueMarble.TemplateColorCache)
       (tileCoords : ℚ × ℚ) (minX minY maxX maxY x y : ℚ)
       (tmpl game : BlueMarble.Sample),
      tmpl.alpha > 128 → ¬game.alpha < 128 →
      BlueMarble.findClosestColor ⟨game.r, game.g, game.b⟩ ≠
        (BlueMarble.resolveTemplateColor cache tmpl.alpha tmpl.r tmpl.g tmpl.b).1 →
      ∃ d : BlueMarble.PixelData,
        (BlueMarble.classifyPixel analyzeTransparentPixels cache tileCoords
            minX minY maxX maxY x y tmpl game).1 = some d ∧
        d.priority =
          BlueMarble.colorPriorityOf (BlueMarble.calculateColorDifference
            ⟨game.r, game.g, game.b⟩ ⟨tmpl.r, tmpl.g, tmpl.b⟩) +
          BlueMarble.centerBonus minX minY maxX maxY x y) ∧
    (∀ d1 d2 bonus : ℝ, d1 ≤ d2 →
      BlueMarble.colorPriorityOf (BlueMarble.scaledColorDifference d1) + bonus ≤
        BlueMarble.colorPriorityOf (BlueMarble.scaledColorDifference d2) + bonus) ∧
    (∀ d1 d2 bonus : ℝ, 0 ≤ d1 → d1 < d2 →
      BlueMarble.scaledColorDifference d2 ≤ 100 →
      BlueMarble.colorPriorityOf (BlueMarble.scaledColorDifference d1) + bonus <
        BlueMarble.colorPriorityOf (BlueMarble.scaledColorDifference d2) + bonus) ∧
    (∀ d1 d2 bonus : ℝ, 100 ≤ BlueMarble.scaledColorDifference d1 →
      100 ≤ BlueMarble.scaledColorDifference d2 →
      BlueMarble.colorPriorityOf (BlueMarble.scaledColorDifference d1) + bonus =
        BlueMarble.colorPriorityOf (BlueMarble.scaledColorDifference d2) + bonus) := by
  refine ⟨?_, ?_, ?_, ?_⟩
  · intro flag cache tileCoords minX minY maxX maxY x y tmpl game h1 h2 h3
    refine ⟨⟨tileCoords, (x, y),
      (BlueMarble.resolveTemplateColor cache tmpl.alpha tmpl.r tmpl.g tmpl.b).1,
      BlueMarble.colorPriorityOf (BlueMarble.calculateColorDifference
        ⟨game.r, game.g, game.b⟩ ⟨tmpl.r, tmpl.g, tmpl.b⟩) +
        BlueMarble.centerBonus minX minY maxX maxY x y⟩, ?_, rfl⟩
    rw [BlueMarble.classifyPixel_correction flag cache tileCoords
      minX minY maxX maxY x y tmpl game h1 h2 h3]
  · intro d1 d2 bonus h
    have hmin : min (BlueMarble.scaledColorDifference d1 / 100) 1 ≤
        min (BlueMarble.scaledColorDifference d2 / 100) 1 := by
      apply min_le_min _ le_rfl
      simp only [BlueMarble.scaledColorDifference]
      linarith
    simp only [BlueMarble.colorPriorityOf, BlueMarble.MAX_PRIORITY_SCORE]
    nlinarith [hmin]
  · intro d1 d2 bonus h0 hlt hcap
    simp only [BlueMarble.scaledColorDifference] at hcap
    have e1 : min (d1 * 5000 / 100) 1 = d1 * 5000 / 100 :=
      min_eq_left (by linarith)
    have e2 : min (d2 * 5000 / 100) 1 = d2 * 5000 / 100 :=
      min_eq_left (by linarith)
    simp only [BlueMarble.colorPriorityOf, BlueMarble.scaledColorDifference,
      BlueMarble.MAX_PRIORITY_SCORE, e1, e2]
    nlinarith
  · intro d1 d2 bonus hc1 hc2
    have e1 : min (BlueMarble.scaledColorDifference d1 / 100) 1 = 1 := by
      apply min_eq_right
      linarith
    have e2 : min (BlueMarble.scaledColorDifference d2 / 100) 1 = 1 := by
      apply min_eq_right
      linarith
    simp only [BlueMarble.colorPriorityOf, BlueMarble.MAX_PRIORITY_SCORE, e1, e2]

/-- Witness for the amended C2 at concrete inputs: below the ceiling
(ΔE = 0.001 vs 0.002, bonus 0) the strict order survives. -/
theorem C2_color_priority_amended_witness :
    BlueMarble.colorPriorityOf (BlueMarble.scaledColorDifference 0.001) + 0 <
      BlueMarble.colorPriorityOf (BlueMarble.scaledColorDifference 0.002) + 0 :=
  C2_color_priority_amended.2.2.1 0.001 0.002 0 (by norm_num) (by norm_num)
    (by norm_num [BlueMarble.scaledColorDifference])

namespace BlueMarble

/-! ### Tier classification of every emitted candidate. -/

lemma analyzeTileLoop_cons (flag : Bool) (tc : ℚ × ℚ) (minX minY maxX maxY : ℚ)
    (cache : TemplateColorCache) (px : TilePixel) (rest : List TilePixel) :
    analyzeTileLoop flag tc minX minY maxX maxY cache (px :: rest) =
      ((match (classifyPixel flag cache tc minX minY maxX maxY
            px.x px.y px.tmpl px.game).1 with
        | some pd => pd :: (analyzeTileLoop flag tc minX minY maxX maxY
            (classifyPixel flag cache tc minX minY maxX maxY
              px.x px.y px.tmpl px.game).2 rest).1
        | none => (analyzeTileLoop flag tc minX minY maxX maxY
            (classifyPixel flag cache tc minX minY maxX maxY
              px.x px.y px.tmpl px.game).2 rest).1),
       (analyzeTileLoop flag tc minX minY maxX maxY
          (classifyPixel flag cache tc minX minY maxX maxY
            px.x px.y px.tmpl px.game).2 rest).2) := rfl

/-- Any candidate emitted for a pixel inside the scanned rectangle is either a
grief-clean erase at exactly 2 000 000, a new placement in
[1 000 000, 1 500 000], or a colour correction in [0, 1 000 000]; the last
two always carry a non-transparent colour id. -/
lemma classifyPixel_candidate_tiers (flag : Bool)
    (cache : TemplateColorCache) (tc : ℚ × ℚ)
    (minX minY maxX maxY x y : ℚ) (tmpl game : Sample)
    (d : PixelData) (c2 : TemplateColorCache)
    (hc : CacheCoherent cache) (hb : SampleBytes tmpl)
    (hx1 : minX ≤ x) (hx2 : x ≤ maxX) (hy1 : minY ≤ y) (hy2 : y ≤ maxY)
    (h : classifyPixel flag cache tc minX minY maxX maxY x y tmpl game =
      (some d, c2)) :
    (d.colorId = 0 ∧ d.priority = 2000000) ∨
    (d.colorId ≠ 0 ∧ 1000000 ≤ d.priority ∧ d.priority ≤ 1500000) ∨
    (d.colorId ≠ 0 ∧ 0 ≤ d.priority ∧ d.priority ≤ 1000000) := by
  obtain ⟨hr1, hr2, hg1, hg2, hb1, hb2, ha1, ha2⟩ := hb
  have hfcc : (resolveTemplateColor cache tmpl.alpha tmpl.r tmpl.g tmpl.b).1 =
      findClosestColor ⟨tmpl.r, tmpl.g, tmpl.b⟩ :=
    (resolveTemplateColor_correct cache hc tmpl.alpha tmpl.r tmpl.g tmpl.b
      ha1 ha2 hr1 hr2 hg1 hg2 hb1 hb2).1
  have hne : (resolveTemplateColor cache tmpl.alpha tmpl.r tmpl.g tmpl.b).1 ≠ 0 := by
    rw [hfcc]
    have := findClosestColor_range ⟨tmpl.r, tmpl.g, tmpl.b⟩
    omega
  by_cases h1 : flag = true ∧ tmpl.alpha < 128 ∧ game.alpha > 0
  · obtain ⟨hflag, halpha, hgame⟩ := h1
    subst hflag
    rw [classifyPixel_grief cache tc minX minY maxX maxY x y tmpl game
      halpha hgame] at h
    injection h with hfst hsnd
    injection hfst with hd
    subst hd
    left
    exact ⟨rfl, rfl⟩
  · by_cases h2 : tmpl.alpha > 128
    · by_cases h3 : game.alpha < 128
      · rw [classifyPixel_newPlacement flag cache tc minX minY maxX maxY x y
          tmpl game h2 h3] at h
        injection h with hfst hsnd
        injection hfst with hd
        subst hd
        right; left
        refine ⟨hne, ?_, ?_⟩
        · show (1000000 : ℝ) ≤ 1000000 + centerBonus minX minY maxX maxY x y
          linarith [centerBonus_nonneg minX minY maxX maxY x y hx1 hx2 hy1 hy2]
        · show 1000000 + centerBonus minX minY maxX maxY x y ≤ (1500000 : ℝ)
          linarith [centerBonus_le minX minY maxX maxY x y]
      · by_cases h4 : findClosestColor ⟨game.r, game.g, game.b⟩ =
            (resolveTemplateColor cache tmpl.alpha tmpl.r tmpl.g tmpl.b).1
        · rw [classifyPixel_match_none flag cache tc minX minY maxX maxY x y
            tmpl game h2 h3 h4] at h
          injection h with hfst hsnd
          exact absurd hfst (by simp)
        · rw [classifyPixel_correction flag cache tc minX minY maxX maxY x y
            tmpl game h2 h3 h4] at h
          injection h with hfst hsnd
          injection hfst with hd
          subst hd
          right; right
          refine ⟨hne, ?_, ?_⟩
          · show (0 : ℝ) ≤ colorPriorityOf (calculateColorDifference
              ⟨game.r, game.g, game.b⟩ ⟨tmpl.r, tmpl.g, tmpl.b⟩) +
              centerBonus minX minY maxX maxY x y
            have := colorPriorityOf_nonneg _
              (calculateColorDifference_nonneg ⟨game.r, game.g, game.b⟩
                ⟨tmpl.r, tmpl.g, tmpl.b⟩)
            linarith [centerBonus_nonneg minX minY maxX maxY x y hx1 hx2 hy1 hy2]
          · show colorPriorityOf (calculateColorDifference
              ⟨game.r, game.g, game.b⟩ ⟨tmpl.r, tmpl.g, tmpl.b⟩) +
              centerBonus minX minY maxX maxY x y ≤ (1000000 : ℝ)
            have := colorPriorityOf_le (calculateColorDifference
              ⟨game.r, game.g, game.b⟩ ⟨tmpl.r, tmpl.g, tmpl.b⟩)
            linarith [centerBonus_le minX minY maxX maxY x y]
    · rw [classifyPixel_transparent_none flag cache tc minX minY maxX maxY x y
        tmpl game h1 h2] at h
      injection h with hfst hsnd
      exact absurd hfst (by simp)

/-- Every candidate of a whole analysis pass over in-rectangle pixels falls in
one of the three tiers. -/
lemma analyzeTileLoop_tiers (flag : Bool) (tc : ℚ × ℚ)
    (minX minY maxX maxY : ℚ) :
    ∀ (pixels : List TilePixel) (cache : TemplateColorCache),
    CacheCoherent cache →
    (∀ px ∈ pixels, SampleBytes px.tmpl ∧ minX ≤ px.x ∧ px.x ≤ maxX ∧
      minY ≤ px.y ∧ px.y ≤ maxY) →
    ∀ d ∈ (analyzeTileLoop flag tc minX minY maxX maxY cache pixels).1,
      (d.colorId = 0 ∧ d.priority = 2000000) ∨
      (d.colorId ≠ 0 ∧ 1000000 ≤ d.priority ∧ d.priority ≤ 1500000) ∨
      (d.colorId ≠ 0 ∧ 0 ≤ d.priority ∧ d.priority ≤ 1000000) := by
  intro pixels
  induction pixels with
  | nil =>
    intro cache _ _ d hd
    simp [analyzeTileLoop] at hd
  | cons px rest ih =>
    intro cache hc hb d hd
    rw [analyzeTileLoop_cons] at hd
    obtain ⟨hbpx, hx1, hx2, hy1, hy2⟩ := hb px (List.mem_cons_self px rest)
    have hc' : CacheCoherent (classifyPixel flag cache tc minX minY maxX maxY
        px.x px.y px.tmpl px.game).2 :=
      classifyPixel_cache_coherent flag cache tc minX minY maxX maxY
        px.x px.y px.tmpl px.game hc hbpx
    cases hcls : (classifyPixel flag cache tc minX minY maxX maxY
        px.x px.y px.tmpl px.game).1 with
    | none =>
      rw [hcls] at hd
      exact ih _ hc' (fun q hq => hb q (List.mem_cons_of_mem px hq)) d hd
    | some pd =>
      rw [hcls] at hd
      rcases List.mem_cons.mp hd with rfl | hd'
      · have hpair : classifyPixel flag cache tc minX minY maxX maxY
            px.x px.y px.tmpl px.game =
            (some d, (classifyPixel flag cache tc minX minY maxX maxY
              px.x px.y px.tmpl px.game).2) := by
          conv_lhs => rw [← Prod.mk.eta (p := classifyPixel flag cache tc
            minX minY maxX maxY px.x px.y px.tmpl px.game)]
          rw [hcls]
        exact classifyPixel_candidate_tiers flag cache tc minX minY maxX maxY
          px.x px.y px.tmpl px.game d _ hc hbpx hx1 hx2 hy1 hy2 hpair
      · exact ih _ hc' (fun q hq => hb q (List.mem_cons_of_mem px hq)) d hd'

end BlueMarble

/-- C9: within one `analyzeTile` invocation over in-rectangle pixels (with a
coherent colour cache and byte-valued template samples), every grief-clean
candidate (colour id 0) has priority exactly 2 000 000, strictly above every
non-grief candidate; every new-placement candidate lies in
[1 000 000, 1 500 000]; every colour-correction candidate is at most
1 000 000 (capped colour score ≤ 500 000 plus centre bonus ≤ 500 000). -/
theorem C9_tier_ordering_spec :
    (∀ (flag : Bool) (tc : ℚ × ℚ) (minX minY maxX maxY : ℚ)
       (pixels : List BlueMarble.TilePixel)
       (cache : BlueMarble.TemplateColorCache),
      BlueMarble.CacheCoherent cache →
      (∀ px ∈ pixels, BlueMarble.SampleBytes px.tmpl ∧ minX ≤ px.x ∧
        px.x ≤ maxX ∧ minY ≤ px.y ∧ px.y ≤ maxY) →
      ∀ d ∈ (BlueMarble.analyzeTileLoop flag tc minX minY maxX maxY cache
          pixels).1,
        (d.colorId = 0 → d.priority = 2000000) ∧
        (d.colorId ≠ 0 → 0 ≤ d.priority ∧ d.priority ≤ 1500000) ∧
        (∀ d' ∈ (BlueMarble.analyzeTileLoop flag tc minX minY maxX maxY cache
            pixels).1,
          d.colorId = 0 → d'.colorId ≠ 0 → d'.priority < d.priority)) ∧
    (∀ (cache : BlueMarble.TemplateColorCache) (tc : ℚ × ℚ)
       (minX minY maxX maxY x y : ℚ) (tmpl game : BlueMarble.Sample),
      tmpl.alpha < 128 → game.alpha > 0 →
      ∀ d : BlueMarble.PixelData,
        (BlueMarble.classifyPixel true cache tc minX minY maxX maxY x y
          tmpl game).1 = some d → d.priority = 2000000) ∧
    (∀ (flag : Bool) (cache : BlueMarble.TemplateColorCache) (tc : ℚ × ℚ)
       (minX minY maxX maxY x y : ℚ) (tmpl game : BlueMarble.Sample),
      tmpl.alpha > 128 → game.alpha < 128 →
      minX ≤ x → x ≤ maxX → minY ≤ y → y ≤ maxY →
      ∀ d : BlueMarble.PixelData,
        (BlueMarble.classifyPixel flag cache tc minX minY maxX maxY x y
          tmpl game).1 = some d →
        1000000 ≤ d.priority ∧ d.priority ≤ 1500000) ∧
    (∀ (flag : Bool) (cache : BlueMarble.TemplateColorCache) (tc : ℚ × ℚ)
       (minX minY maxX maxY x y : ℚ) (tmpl game : BlueMarble.Sample),
      tmpl.alpha > 128 → ¬game.alpha < 128 →
      minX ≤ x → x ≤ maxX → minY ≤ y → y ≤ maxY →
      ∀ d : BlueMarble.PixelData,
        (BlueMarble.classifyPixel flag cache tc minX minY maxX maxY x y
          tmpl game).1 = some d →
        0 ≤ d.priority ∧ d.priority ≤ 1000000) := by
  refine ⟨?_, ?_, ?_, ?_⟩
  · intro flag tc minX minY maxX maxY pixels cache hc hb d hd
    have htd := BlueMarble.analyzeTileLoop_tiers flag tc minX minY maxX maxY
      pixels cache hc hb d hd
    refine ⟨?_, ?_, ?_⟩
    · intro h0
      rcases htd with ⟨-, h⟩ | ⟨hne, -⟩ | ⟨hne, -⟩
      · exact h
      · exact absurd h0 hne
      · exact absurd h0 hne
    · intro hne
      rcases htd with ⟨h0, -⟩ | ⟨-, hl, hu⟩ | ⟨-, hl, hu⟩
      · exact absurd h0 hne
      · exact ⟨by linarith, hu⟩
      · exact ⟨hl, by linarith⟩
    · intro d' hd' h0 hne'
      have htd' := BlueMarble.analyzeTileLoop_tiers flag tc minX minY maxX maxY
        pixels cache hc hb d' hd'
      have hdp : d.priority = 2000000 := by
        rcases htd with ⟨-, h⟩ | ⟨hne, -⟩ | ⟨hne, -⟩
        · exact h
        · exact absurd h0 hne
        · exact absurd h0 hne
      have hdp' : d'.priority ≤ 1500000 := by
        rcases htd' with ⟨h0', -⟩ | ⟨-, -, hu⟩ | ⟨-, -, hu⟩
        · exact absurd h0' hne'
        · exact hu
        · linarith
      rw [hdp]
      linarith
  · intro cache tc minX minY maxX maxY x y tmpl game h1 h2 d hd
    rw [BlueMarble.classifyPixel_grief cache tc minX minY maxX maxY x y
      tmpl game h1 h2] at hd
    injection hd with hd
    rw [← hd]
  · intro flag cache tc minX minY maxX maxY x y tmpl game h1 h2
      hx1 hx2 hy1 hy2 d hd
    rw [BlueMarble.classifyPixel_newPlacement flag cache tc minX minY maxX maxY
      x y tmpl game h1 h2] at hd
    injection hd with hd
    rw [← hd]
    constructor
    · show (1000000 : ℝ) ≤ 1000000 + BlueMarble.centerBonus minX minY maxX maxY x y
      linarith [BlueMarble.centerBonus_nonneg minX minY maxX maxY x y
        hx1 hx2 hy1 hy2]
    · show 1000000 + BlueMarble.centerBonus minX minY maxX maxY x y ≤ (1500000 : ℝ)
      linarith [BlueMarble.centerBonus_le minX minY maxX maxY x y]
  · intro flag cache tc minX minY maxX maxY x y tmpl game h1 h2
      hx1 hx2 hy1 hy2 d hd
    by_cases h4 : BlueMarble.findClosestColor ⟨game.r, game.g, game.b⟩ =
        (BlueMarble.resolveTemplateColor cache tmpl.alpha tmpl.r tmpl.g tmpl.b).1
    · rw [BlueMarble.classifyPixel_match_none flag cache tc minX minY maxX maxY
        x y tmpl game h1 h2 h4] at hd
      exact absurd hd (by simp)
    · rw [BlueMarble.classifyPixel_correction flag cache tc minX minY maxX maxY
        x y tmpl game h1 h2 h4] at hd
      injection hd with hd
      rw [← hd]
      have hcp0 := BlueMarble.colorPriorityOf_nonneg _
        (BlueMarble.calculateColorDifference_nonneg ⟨game.r, game.g, game.b⟩
          ⟨tmpl.r, tmpl.g, tmpl.b⟩)
      have hcp1 := BlueMarble.colorPriorityOf_le
        (BlueMarble.calculateColorDifference ⟨game.r, game.g, game.b⟩
          ⟨tmpl.r, tmpl.g, tmpl.b⟩)
      constructor
      · show (0 : ℝ) ≤ BlueMarble.colorPriorityOf
          (BlueMarble.calculateColorDifference ⟨game.r, game.g, game.b⟩
            ⟨tmpl.r, tmpl.g, tmpl.b⟩) +
          BlueMarble.centerBonus minX minY maxX maxY x y
        linarith [BlueMarble.centerBonus_nonneg minX minY maxX maxY x y
          hx1 hx2 hy1 hy2]
      · show BlueMarble.colorPriorityOf
          (BlueMarble.calculateColorDifference ⟨game.r, game.g, game.b⟩
            ⟨tmpl.r, tmpl.g, tmpl.b⟩) +
          BlueMarble.centerBonus minX minY maxX maxY x y ≤ (1000000 : ℝ)
        linarith [BlueMarble.centerBonus_le minX minY maxX maxY x y]

/-- Witness for C9 at a concrete grief-clean input: the emitted candidate's
priority is exactly the top tier 2 000 000. -/
theorem C9_tier_ordering_spec_witness :
    (BlueMarble.PixelData.mk (0, 0) (0, 0) 0 2000000).priority = 2000000 :=
  C9_tier_ordering_spec.2.1 [] (0, 0) 0 0 1 1 0 0 ⟨0, 0, 0, 0⟩ ⟨5, 5, 5, 255⟩
    (by norm_num) (by norm_num) ⟨(0, 0), (0, 0), 0, 2000000⟩
    (by rw [BlueMarble.classifyPixel_grief [] (0, 0) 0 0 1 1 0 0 ⟨0, 0, 0, 0⟩
      ⟨5, 5, 5, 255⟩ (by norm_num) (by norm_num)])

namespace BlueMarble

/-! ### `executeQuickPaint` — filter, sort, weighted random selection
(part of the ApiManager). -/

/-- The just-in-time availability filter:
`pixel.colorId === 0 || availableColors[pixel.colorId]` (erase is always
permitted). -/
def filterByAvailable (queue : List PixelData) (avail : ℤ → Bool) :
    List PixelData :=
  queue.filter (fun p => decide (p.colorId = 0) || avail p.colorId)

/-- The comparator of `sort((a, b) => (b.priority || 0) - (a.priority || 0))`:
`a` precedes `b` when `a` has the larger (or equal) priority. -/
def byPriorityDesc (a b : PixelData) : Prop := b.priority ≤ a.priority

noncomputable instance : DecidableRel byPriorityDesc :=
  fun a b => inferInstanceAs (Decidable (b.priority ≤ a.priority))

instance : IsTotal PixelData byPriorityDesc :=
  ⟨fun a b => le_total b.priority a.priority⟩

instance : IsTrans PixelData byPriorityDesc :=
  ⟨fun _ _ _ h1 h2 => le_trans h2 h1⟩

/-- The comparator of `weightedItems.sort((a, b) => b.key - a.key)`. -/
def byKeyDesc (a b : PixelData × ℝ) : Prop := b.2 ≤ a.2

noncomputable instance : DecidableRel byKeyDesc :=
  fun a b => inferInstanceAs (Decidable (b.2 ≤ a.2))

instance : IsTotal (PixelData × ℝ) byKeyDesc :=
  ⟨fun a b => le_total b.2 a.2⟩

instance : IsTrans (PixelData × ℝ) byKeyDesc :=
  ⟨fun _ _ _ h1 h2 => le_trans h2 h1⟩

/-- The linearly decreasing A-ES weight:
`L > 1 ? (-2.0 / (L - 1.0)) * i + 3.0 : 1.0` — 3 for the best rank 0 down to
1 for the worst rank `L - 1`. -/
noncomputable def quickPaintWeight (L i : ℕ) : ℝ :=
  if 1 < L then (-2 / ((L : ℝ) - 1)) * (i : ℝ) + 3 else 1

/-- The Efraimidis–Spirakis selection key `Math.pow(u, 1.0 / weight)` for a
uniform draw `u ∈ [0, 1)`. -/
noncomputable def quickPaintKey (u w : ℝ) : ℝ := u ^ ((1 : ℝ) / w)

/-- `sortedQueue.map((pixel, i) => {weight; u = Math.random(); key})`, with
the random draws supplied as the list `us` (`us.getD i 0` is the i-th call of
`Math.random()`). -/
noncomputable def weightedItemsOf (sorted : List PixelData) (us : List ℝ) :
    List (PixelData × ℝ) :=
  sorted.enum.map (fun ip =>
    (ip.2, quickPaintKey (us.getD ip.1 0) (quickPaintWeight sorted.length ip.1)))

/-- Sort the weighted items by key descending, take the top `numToPaint`, drop
the keys. -/
noncomputable def quickPaintSelection (sorted : List PixelData) (us : List ℝ)
    (numToPaint : ℕ) : List PixelData :=
  ((((weightedItemsOf sorted us).insertionSort byKeyDesc).take numToPaint).map
    Prod.fst)

/-- Steps 4 of `executeQuickPaint`: sort the filtered queue by descending
priority, let `numToPaint = min(paintCount, sortedQueue.length)`, and select
by weighted random sampling without replacement. -/
noncomputable def executeQuickPaintSelect (filteredQueue : List PixelData)
    (us : List ℝ) (paintCount : ℕ) : List PixelData :=
  let sortedQueue := filteredQueue.insertionSort byPriorityDesc
  let numToPaint := min paintCount sortedQueue.length
  quickPaintSelection sortedQueue us numToPaint

lemma weightedItemsOf_length (sorted : List PixelData) (us : List ℝ) :
    (weightedItemsOf sorted us).length = sorted.length := by
  simp [weightedItemsOf]

lemma quickPaintSelection_length (sorted : List PixelData) (us : List ℝ)
    (n : ℕ) :
    (quickPaintSelection sorted us n).length = min n sorted.length := by
  simp only [quickPaintSelection, List.length_map, List.length_take]
  rw [(List.perm_insertionSort byKeyDesc (weightedItemsOf sorted us)).length_eq,
    weightedItemsOf_length]

/-- Two-candidate queue used to exhibit the randomness of the selection: the
high-priority candidate … -/
noncomputable def qpHigh : PixelData := ⟨(0, 0), (0, 0), 1, 10⟩

/-- … and the low-priority candidate. -/
noncomputable def qpLow : PixelData := ⟨(0, 0), (1, 0), 2, 5⟩

end BlueMarble

/-- C1: the quick-paint selection takes exactly `min(budget, |filtered|)`
candidates from the availability-filtered queue; ranks carry the linearly
decreasing A-ES weight (3 at rank 0 down to 1 at the last rank, strictly
decreasing in between); the candidates kept are exactly those whose selection
keys `u^(1/weight)` are largest (every kept key is ≥ every dropped key); and
the outcome is genuinely random, not a deterministic top-K slice: suitable
uniform draws make the selection differ from the priority-ordered prefix, and
different draws give different selections. -/
theorem C1_weighted_selection_spec :
    (∀ (queue : List BlueMarble.PixelData) (avail : ℤ → Bool) (us : List ℝ)
       (paintCount : ℕ),
      (BlueMarble.executeQuickPaintSelect
          (BlueMarble.filterByAvailable queue avail) us paintCount).length =
        min paintCount (BlueMarble.filterByAvailable queue avail).length) ∧
    (∀ L : ℕ, 1 < L →
      BlueMarble.quickPaintWeight L 0 = 3 ∧
      BlueMarble.quickPaintWeight L (L - 1) = 1 ∧
      ∀ i j : ℕ, i < j → j < L →
        BlueMarble.quickPaintWeight L j < BlueMarble.quickPaintWeight L i) ∧
    (∀ (sorted : List BlueMarble.PixelData) (us : List ℝ) (n : ℕ)
       (p q : BlueMarble.PixelData × ℝ),
      p ∈ ((BlueMarble.weightedItemsOf sorted us).insertionSort
        BlueMarble.byKeyDesc).take n →
      q ∈ ((BlueMarble.weightedItemsOf sorted us).insertionSort
        BlueMarble.byKeyDesc).drop n →
      q.2 ≤ p.2) ∧
    (∃ (filtered : List BlueMarble.PixelData) (us us' : List ℝ) (n : ℕ),
      0 < n ∧
      BlueMarble.executeQuickPaintSelect filtered us n ≠
        (filtered.insertionSort BlueMarble.byPriorityDesc).take n ∧
      BlueMarble.executeQuickPaintSelect filtered us n ≠
        BlueMarble.executeQuickPaintSelect filtered us' n) := by
  refine ⟨?_, ?_, ?_, ?_⟩
  · intro queue avail us paintCount
    simp only [BlueMarble.executeQuickPaintSelect]
    rw [BlueMarble.quickPaintSelection_length,
      (List.perm_insertionSort BlueMarble.byPriorityDesc
        (BlueMarble.filterByAvailable queue avail)).length_eq]
    omega
  · intro L hL
    have hL2 : (2 : ℝ) ≤ (L : ℝ) := by exact_mod_cast hL
    have hpos : (0 : ℝ) < (L : ℝ) - 1 := by linarith
    have hne : ((L : ℝ) - 1) ≠ 0 := ne_of_gt hpos
    refine ⟨?_, ?_, ?_⟩
    · simp [BlueMarble.quickPaintWeight, hL]
    · simp only [BlueMarble.quickPaintWeight, if_pos hL]
      rw [Nat.cast_sub (le_of_lt hL)]
      push_cast
      field_simp
      ring
    · intro i j hij hjL
      simp only [BlueMarble.quickPaintWeight, if_pos hL]
      have hslope : (-2 : ℝ) / ((L : ℝ) - 1) < 0 :=
        div_neg_of_neg_of_pos (by norm_num) hpos
      have hcast : (i : ℝ) < (j : ℝ) := by exact_mod_cast hij
      nlinarith [mul_lt_mul_of_neg_left hcast hslope]
  · intro sorted us n p q hp hq
    have hs : List.Sorted BlueMarble.byKeyDesc
        ((BlueMarble.weightedItemsOf sorted us).insertionSort
          BlueMarble.byKeyDesc) :=
      List.sorted_insertionSort BlueMarble.byKeyDesc _
    rw [← List.take_append_drop n ((BlueMarble.weightedItemsOf sorted us).insertionSort
      BlueMarble.byKeyDesc)] at hs
    exact (List.pairwise_append.mp hs).2.2 p hp q hq
  · refine ⟨[BlueMarble.qpHigh, BlueMarble.qpLow], [0, 1/2], [0, 0], 1,
      one_pos, ?_, ?_⟩ <;>
    · have hw0 : BlueMarble.quickPaintWeight 2 0 = 3 := by
        norm_num [BlueMarble.quickPaintWeight]
      have hw1 : BlueMarble.quickPaintWeight 2 1 = 1 := by
        norm_num [BlueMarble.quickPaintWeight]
      have hk00 : BlueMarble.quickPaintKey 0 3 = 0 := by
        rw [BlueMarble.quickPaintKey, Real.zero_rpow (by norm_num)]
      have hk01 : BlueMarble.quickPaintKey 0 1 = 0 := by
        rw [BlueMarble.quickPaintKey, Real.zero_rpow (by norm_num)]
      have hk1 : BlueMarble.quickPaintKey (2⁻¹ : ℝ) 1 = (2⁻¹ : ℝ) := by
        rw [BlueMarble.quickPaintKey]
        norm_num
      have hsortP : List.insertionSort BlueMarble.byPriorityDesc
          [BlueMarble.qpHigh, BlueMarble.qpLow] =
          [BlueMarble.qpHigh, BlueMarble.qpLow] := by
        simp only [List.insertionSort, List.orderedInsert]
        rw [if_pos (show BlueMarble.byPriorityDesc BlueMarble.qpHigh
          BlueMarble.qpLow by
            norm_num [BlueMarble.byPriorityDesc, BlueMarble.qpHigh,
              BlueMarble.qpLow])]
      have hwi : BlueMarble.weightedItemsOf
          [BlueMarble.qpHigh, BlueMarble.qpLow] [0, 1/2] =
          [(BlueMarble.qpHigh, (0 : ℝ)), (BlueMarble.qpLow, (1/2 : ℝ))] := by
        simp [BlueMarble.weightedItemsOf, List.enum, List.enumFrom, hw0, hw1,
          hk00, hk1]
      have hwi' : BlueMarble.weightedItemsOf
          [BlueMarble.qpHigh, BlueMarble.qpLow] [0, 0] =
          [(BlueMarble.qpHigh, (0 : ℝ)), (BlueMarble.qpLow, (0 : ℝ))] := by
        simp [BlueMarble.weightedItemsOf, List.enum, List.enumFrom, hw0, hw1,
          hk00, hk01]
      have hsortK : List.insertionSort BlueMarble.byKeyDesc
          [(BlueMarble.qpHigh, (0 : ℝ)), (BlueMarble.qpLow, (1/2 : ℝ))] =
          [(BlueMarble.qpLow, (1/2 : ℝ)), (BlueMarble.qpHigh, (0 : ℝ))] := by
        simp only [List.insertionSort, List.orderedInsert]
        rw [if_neg (show ¬BlueMarble.byKeyDesc (BlueMarble.qpHigh, (0 : ℝ))
          (BlueMarble.qpLow, (1/2 : ℝ)) by norm_num [BlueMarble.byKeyDesc])]
      have hsortK' : List.insertionSort BlueMarble.byKeyDesc
          [(BlueMarble.qpHigh, (0 : ℝ)), (BlueMarble.qpLow, (0 : ℝ))] =
          [(BlueMarble.qpHigh, (0 : ℝ)), (BlueMarble.qpLow, (0 : ℝ))] := by
        simp only [List.insertionSort, List.orderedInsert]
        rw [if_pos (show BlueMarble.byKeyDesc (BlueMarble.qpHigh, (0 : ℝ))
          (BlueMarble.qpLow, (0 : ℝ)) by norm_num [BlueMarble.byKeyDesc])]
      have hsel : BlueMarble.executeQuickPaintSelect
          [BlueMarble.qpHigh, BlueMarble.qpLow] [0, 1/2] 1 =
          [BlueMarble.qpLow] := by
        simp only [BlueMarble.executeQuickPaintSelect, hsortP,
          BlueMarble.quickPaintSelection, hwi, hsortK]
        norm_num
      have hsel' : BlueMarble.executeQuickPaintSelect
          [BlueMarble.qpHigh, BlueMarble.qpLow] [0, 0] 1 =
          [BlueMarble.qpHigh] := by
        simp only [BlueMarble.executeQuickPaintSelect, hsortP,
          BlueMarble.quickPaintSelection, hwi', hsortK']
        norm_num
      have hne : BlueMarble.qpLow ≠ BlueMarble.qpHigh := by
        intro h
        have := congrArg BlueMarble.PixelData.colorId h
        simp [BlueMarble.qpHigh, BlueMarble.qpLow] at this
      first
      | (rw [hsel, hsortP]
         intro h
         rw [show ([BlueMarble.qpHigh, BlueMarble.qpLow].take 1) =
           [BlueMarble.qpHigh] from rfl] at h
         exact hne (by injection h))
      | (rw [hsel, hsel']
         intro h
         exact hne (by injection h))

/-- Witness for C1 at concrete inputs: with a two-candidate filtered list and
budget 1, exactly one candidate is selected, and the rank-0/rank-1 weights for
a two-element list are 3 and 1. -/
theorem C1_weighted_selection_spec_witness :
    (BlueMarble.executeQuickPaintSelect
      (BlueMarble.filterByAvailable [] (fun _ => true)) [] 3).length =
        min 3 (BlueMarble.filterByAvailable [] (fun _ => true)).length ∧
    BlueMarble.quickPaintWeight 2 0 = 3 ∧ BlueMarble.quickPaintWeight 2 1 = 1 :=
  ⟨C1_weighted_selection_spec.1 [] (fun _ => true) [] 3,
   (C1_weighted_selection_spec.2.1 2 (by norm_num)).1,
   (C1_weighted_selection_spec.2.1 2 (by norm_num)).2.1⟩

namespace BlueMarble

/-! ### The AutoPainter controller (`src/autoPainter.js`).
The paint cycle is a retry loop over cycle outcomes; the side effects that
matter to the spec (setting/clearing the `bm-network-paused` flag, the
cancellable waits, the forced page reload) are recorded as an action trace,
and the mutable `isPainting`/`failureCount` fields are threaded as explicit
state. -/

/-- Observable effects of the paint cycle. -/
inductive PainterAction where
  | pauseNetwork
  | wait (ms : ℕ)
  | unpauseNetwork
  | reload
deriving DecidableEq, Repr

/-- The outcome of one loop iteration. `success` carries whether the user
stopped the painter during the inter-cycle interval wait; `failure` carries
whether the catch block observed `isPainting == false` (cancellation) and
whether the user stopped during the 10 s backoff wait. -/
inductive CycleOutcome where
  | success (stopDuringInterval : Bool)
  | failure (stopObserved : Bool) (stopDuringBackoff : Bool)
deriving DecidableEq, Repr

/-- The controller's mutable fields. -/
structure PainterState where
  isPainting : Bool
  failureCount : ℕ
deriving DecidableEq, Repr

/-- `this.failureThreshold = 3` (constructor). -/
def failureThreshold : ℕ := 3

/-- `start()`: transitions to Running and resets the failure counter, but only
when not already painting. -/
def startPainter (s : PainterState) : PainterState :=
  if s.isPainting then s else { isPainting := true, failureCount := 0 }

/-- One iteration of the `while (this.isPainting)` body of `paintCycle`,
given the iteration's outcome.  Returns the new state, the recorded actions,
and whether the loop exits.
* On success: reset the counter; with a positive configured interval, pause
  the network, wait (cancellable), unpause, then reload and exit (or exit
  without reloading when stopped during the wait); with interval 0, loop.
* On failure: if cancellation was observed, exit silently; otherwise
  increment the counter; at the threshold reload immediately and exit;
  below it, wait the fixed 10 s backoff under the network-paused flag and
  retry (or exit when stopped during the backoff). -/
def paintCycleStep (intervalMs : ℕ) (s : PainterState) (o : CycleOutcome) :
    PainterState × List PainterAction × Bool :=
  match o with
  | .success stopDuringInterval =>
    let s1 : PainterState := { s with failureCount := 0 }
    if 0 < intervalMs then
      if stopDuringInterval then
        ({ s1 with isPainting := false },
         [.pauseNetwork, .wait intervalMs, .unpauseNetwork], true)
      else
        (s1, [.pauseNetwork, .wait intervalMs, .unpauseNetwork, .reload], true)
    else (s1, [], false)
  | .failure stopObserved stopDuringBackoff =>
    if stopObserved then ({ s with isPainting := false }, [], true)
    else
      let s1 : PainterState := { s with failureCount := s.failureCount + 1 }
      if failureThreshold ≤ s1.failureCount then (s1, [.reload], true)
      else if stopDuringBackoff then
        ({ s1 with isPainting := false },
         [.pauseNetwork, .wait 10000, .unpauseNetwork], true)
      else (s1, [.pauseNetwork, .wait 10000, .unpauseNetwork], false)

/-- The paint-cycle loop over a sequence of iteration outcomes, accumulating
the action trace until an exit (or until the supplied outcomes run out). -/
def runPaintCycle (intervalMs : ℕ) :
    PainterState → List CycleOutcome → PainterState × List PainterAction
  | s, [] => (s, [])
  | s, o :: os =>
    if s.isPainting then
      let step := paintCycleStep intervalMs s o
      if step.2.2 then (step.1, step.2.1)
      else
        let rest := runPaintCycle intervalMs step.1 os
        (rest.1, step.2.1 ++ rest.2)
    else (s, [])

end BlueMarble

/-- C6: in the controller's paint cycle, every failed (non-cancelled) step
increments the consecutive-failure counter by one; a step that brings the
counter to the threshold 3 performs exactly one forced page reload immediately
and exits the loop (three consecutive failures from a fresh start produce
exactly one reload in the whole trace); below the threshold the step waits the
fixed cancellable 10-second backoff bracketed by the network-paused flag and
then retries (loops), exiting without a reload if stopped during the backoff;
and every successful cycle, as well as `start()` when it actually starts,
resets the counter to 0. -/
theorem C6_paint_cycle_failure_spec :
    (∀ (ms : ℕ) (s : BlueMarble.PainterState) (b : Bool),
      ((BlueMarble.paintCycleStep ms s (.failure false b)).1).failureCount =
        s.failureCount + 1) ∧
    (∀ (ms : ℕ) (s : BlueMarble.PainterState) (b : Bool),
      s.failureCount = 2 →
      BlueMarble.paintCycleStep ms s (.failure false b) =
        ({ s with failureCount := 3 }, [.reload], true)) ∧
    ((BlueMarble.runPaintCycle 0 ⟨true, 0⟩
        [.failure false false, .failure false false, .failure false false]).2.count
          BlueMarble.PainterAction.reload = 1 ∧
     (BlueMarble.runPaintCycle 0 ⟨true, 0⟩
        [.failure false false, .failure false false, .failure false false]).1 =
       ⟨true, 3⟩) ∧
    (∀ (ms : ℕ) (s : BlueMarble.PainterState),
      s.failureCount + 1 < 3 →
      BlueMarble.paintCycleStep ms s (.failure false false) =
        ({ s with failureCount := s.failureCount + 1 },
         [.pauseNetwork, .wait 10000, .unpauseNetwork], false)) ∧
    (∀ (ms : ℕ) (s : BlueMarble.PainterState),
      s.failureCount + 1 < 3 →
      BlueMarble.paintCycleStep ms s (.failure false true) =
        ({ isPainting := false, failureCount := s.failureCount + 1 },
         [.pauseNetwork, .wait 10000, .unpauseNetwork], true)) ∧
    (∀ (ms : ℕ) (s : BlueMarble.PainterState) (b : Bool),
      ((BlueMarble.paintCycleStep ms s (.success b)).1).failureCount = 0) ∧
    (∀ s : BlueMarble.PainterState, s.isPainting = false →
      BlueMarble.startPainter s = ⟨true, 0⟩) := by
  refine ⟨?_, ?_, ?_, ?_, ?_, ?_, ?_⟩
  · intro ms s b
    simp only [BlueMarble.paintCycleStep, BlueMarble.failureThreshold]
    split_ifs <;> simp_all
  · intro ms s b h
    simp [BlueMarble.paintCycleStep, BlueMarble.failureThreshold, h]
  · constructor <;> decide
  · intro ms s h
    have h1 : ¬BlueMarble.failureThreshold ≤ s.failureCount + 1 := by
      simp only [BlueMarble.failureThreshold]; omega
    simp [BlueMarble.paintCycleStep, h1]
  · intro ms s h
    have h1 : ¬BlueMarble.failureThreshold ≤ s.failureCount + 1 := by
      simp only [BlueMarble.failureThreshold]; omega
    simp [BlueMarble.paintCycleStep, h1]
  · intro ms s b
    simp only [BlueMarble.paintCycleStep]
    split_ifs <;> rfl

  · intro s h
    simp [BlueMarble.startPainter, h]

/-- Witness for C6 at concrete states: a first failure increments the fresh
counter to 1, and a failure at counter 2 reloads exactly once and exits. -/
theorem C6_paint_cycle_failure_spec_witness :
    ((BlueMarble.paintCycleStep 0 ⟨true, 0⟩ (.failure false false)).1).failureCount
        = 1 ∧
    BlueMarble.paintCycleStep 0 ⟨true, 2⟩ (.failure false false) =
      (⟨true, 3⟩, [.reload], true) :=
  ⟨C6_paint_cycle_failure_spec.1 0 ⟨true, 0⟩ false,
   C6_paint_cycle_failure_spec.2.1 0 ⟨true, 2⟩ false (by decide)⟩
